import Mathlib

/-! yum-contact: the contact record and its MySQL backend

A shallow embedding of `contact.go` and `db_mysql.go`.

The Go code is a thin adapter: every operation hands one prepared statement to
a MySQL server and turns the answer into a `Contact` or an error.  What the
operations do is therefore decided by two things, both modelled here:

* the Go control flow (guards, error wrapping, the scan loop), translated
  function by function under the source's names;
* the server behind `db.conn`: the table `contacts` declared by
  `createTableStatements` (an unsigned AUTO_INCREMENT primary key, seven
  nullable text columns compared under the table's collation, and a
  `createdDate` that defaults to the current timestamp) and the eight SQL
  texts of the prepared statements.

Everything the driver may report besides the healthy answer (a failed
`Exec`/`Query`, a failed `RowsAffected`, `LastInsertId` or `Scan`, an iteration
that stops early) is an explicit argument `Env` of each operation, so that
statements can quantify over it.
-/

namespace Contacts

/-! ## contact.go -/

/-- Contact defines the basic data collected for each entry (`type Contact struct`). -/
structure Contact where
  ID : Int
  FirstName : String
  LastName : String
  Address : String
  Email : String
  Phone : String
  CreatedBy : String
  CreatedByID : String
  CreatedDate : String
  LastEdited : String
deriving DecidableEq, Repr

/-! ## Errors and driver values -/

/-- A Go `error` value: the sentinel `sql.ErrNoRows` (compared by identity in
`GetContact`) or any other error, known by its message. -/
inductive Error where
  | ErrNoRows
  | text (msg : String)
deriving DecidableEq, Repr

/-- The message of an error (`err.Error()`, what `%v` prints). -/
def Error.message : Error → String
  | .ErrNoRows => "sql: no rows in result set"
  | .text msg => msg

/-- Function `errors.New`: an error with the given message. -/
def errors.New (msg : String) : Error := .text msg

/-- An argument bound to a `?` of a prepared statement (`...interface{}`). -/
inductive Value where
  | str (s : String)
  | int (i : Int)
deriving DecidableEq, Repr

/-- A `sql.Result`: its two methods, each returning a value or an error. -/
structure Result where
  LastInsertId : Except Error Int
  RowsAffected : Except Error Int

/-- A MySQL `datetime` value. -/
structure DateTime where
  year : Nat
  month : Nat
  day : Nat
  hour : Nat
  minute : Nat
  second : Nat
deriving DecidableEq, Repr

/-- Decimal digits of `n`, zero-padded on the left to at least `width` characters. -/
def zeroPad (width n : Nat) : String :=
  String.mk (List.replicate (width - (toString n).length) '0') ++ toString n

/-- The text the driver hands to `Scan` for a `datetime` column: `YYYY-MM-DD HH:MM:SS`. -/
def DateTime.text (d : DateTime) : String :=
  zeroPad 4 d.year ++ "-" ++ zeroPad 2 d.month ++ "-" ++ zeroPad 2 d.day ++ " " ++
    zeroPad 2 d.hour ++ ":" ++ zeroPad 2 d.minute ++ ":" ++ zeroPad 2 d.second

/-! ## The table `contacts` (`createTableStatements`) -/

/-- One row of `contacts`: `id INT UNSIGNED NOT NULL AUTO_INCREMENT`, seven
`... NULL` text columns, `createdDate datetime DEFAULT CURRENT_TIMESTAMP`.
`none` is SQL `NULL`. -/
structure Row where
  id : Nat
  firstName : Option String
  lastName : Option String
  address : Option String
  email : Option String
  phone : Option String
  createdBy : Option String
  createdById : Option String
  createdDate : Option DateTime
deriving DecidableEq, Repr

/-- The prepared statements held by `mysqlDB` (its fields `list`, `listBy`, ...). -/
inductive Stmt where
  | list
  | listBy
  | insert
  | get
  | update
  | delete
  | tally
  | findByName
deriving DecidableEq, Repr

def listStatement : String := "SELECT * FROM contacts ORDER BY lastname, firstname"

def listByStatement : String :=
  "\n  SELECT * FROM contacts\n  WHERE createdById = ? ORDER BY lastName, firstName"

def getStatement : String := "SELECT * FROM contacts WHERE id = ?"

def insertStatement : String :=
  "\n  INSERT INTO contacts (\n    firstName, lastName, address, email, phone, createdBy, createdById\n  ) VALUES (?, ?, ?, ?, ?, ?, ?)"

def deleteStatement : String := "DELETE FROM contacts WHERE id = ?"

def updateStatement : String :=
  "\n  UPDATE contacts\n  SET firstName=?, lastName=?, address=?, email=?, phone=?,\n      createdBy=?, createdById=?\n  WHERE id = ?"

def tallyStatement : String := "SELECT count(1) FROM contacts"

def findByNameStatement : String :=
  "\n  SELECT * FROM contacts\n  WHERE firstname = ? and lastname = ? LIMIT 1"

/-- The SQL text each statement of `newMySQLDB` is prepared from. -/
def Stmt.sql : Stmt → String
  | .list => listStatement
  | .listBy => listByStatement
  | .insert => insertStatement
  | .get => getStatement
  | .update => updateStatement
  | .delete => deleteStatement
  | .tally => tallyStatement
  | .findByName => findByNameStatement

/-- The state behind a `*mysqlDB`: the server reached through `db.conn`.

* `weight` is the collation of the text columns: two strings are equal for
  `WHERE col = ?` when their weights are equal, and `ORDER BY` compares weights
  lexicographically.  `createTableStatements` creates the table under
  `utf8_general_ci`; a table that already exists keeps its own.
* `rows` is the table in storage order.
* `autoIncrement` is the table's next AUTO_INCREMENT value.
* `executed` records every call of `stmt.Exec` with its arguments, oldest first. -/
structure mysqlDB where
  weight : String → List Nat
  rows : List Row
  autoIncrement : Nat
  executed : List (Stmt × List Value)

/-- What the driver reports during one operation, besides the healthy answer.

* `now`: the server's `CURRENT_TIMESTAMP`;
* `exec`: the error of `stmt.Exec` / `stmt.Query` / `stmt.QueryRow` (a lost
  connection, a value the server rejects, ...), if any;
* `rowsAffected`, `lastInsertId`: the error of these `sql.Result` methods, if any;
* `next`: `rows.Next()` stops early, after this many rows, with this `rows.Err()`;
* `scan`: the error of `Scan`, if any. -/
structure Env where
  now : DateTime
  exec : Option Error
  rowsAffected : Option Error
  lastInsertId : Option Error
  next : Option (Nat × Error)
  scan : Option Error

/-- The driver works: no call reports an error. -/
def Env.healthy (now : DateTime) : Env := ⟨now, none, none, none, none, none⟩

/-! ### Collation and ORDER BY -/

/-- Lexicographic `≤` on weight strings. -/
def lexLe : List Nat → List Nat → Bool
  | [], _ => true
  | _ :: _, [] => false
  | a :: as, b :: bs => decide (a < b) || (decide (a = b) && lexLe as bs)

/-- Ascending order of one nullable text column: `NULL` sorts first, then by weight. -/
def keyLe (w : String → List Nat) : Option String → Option String → Bool
  | none, _ => true
  | some _, none => false
  | some a, some b => lexLe (w a) (w b)

/-- The order of `ORDER BY lastName, firstName`: by last name, ties by first name. -/
def nameLe (w : String → List Nat) (a b : Row) : Bool :=
  keyLe w a.lastName b.lastName &&
    (!keyLe w b.lastName a.lastName || keyLe w a.firstName b.firstName)

/-- The rows in `ORDER BY lastName, firstName` order (ties keep storage order). -/
def orderByName (w : String → List Nat) (rows : List Row) : List Row :=
  rows.insertionSort (fun a b => nameLe w a b = true)

/-- The test `col = ?` of a `WHERE` clause on a nullable text column: never true on `NULL`. -/
def colEq (w : String → List Nat) (col : Option String) (x : String) : Bool :=
  match col with
  | none => false
  | some s => decide (w s = w x)

/-- Drop trailing spaces (weight 32) of a weight string: the collation is PAD SPACE. -/
def padSpace (l : List Nat) : List Nat :=
  (l.reverse.dropWhile (fun n => n == 32)).reverse

/-- The collation `utf8_general_ci` of `createTableStatements` on printable ASCII
text: letters compare without regard to case, trailing spaces are ignored.
(Any other character is given its code point.) -/
def utf8_general_ci (s : String) : List Nat :=
  padSpace (s.data.map fun c => if 97 ≤ c.toNat ∧ c.toNat ≤ 122 then c.toNat - 32 else c.toNat)

/-! ### The statements on the server -/

/-- The `SET firstName=?, ..., createdById=?` of `updateStatement` applied to one row. -/
def Row.set (r : Row) (fn ln ad em ph cb cid : String) : Row :=
  { r with firstName := some fn, lastName := some ln, address := some ad, email := some em,
           phone := some ph, createdBy := some cb, createdById := some cid }

/-- The rows a query statement selects, `none` when the statement is not a
row query or the arguments do not fit its placeholders. -/
def Stmt.select (stmt : Stmt) (args : List Value) (db : mysqlDB) : Option (List Row) :=
  match stmt, args with
  | .list, [] => some (orderByName db.weight db.rows)
  | .listBy, [.str userID] =>
      some (orderByName db.weight (db.rows.filter fun r => colEq db.weight r.createdById userID))
  | .get, [.int id] => some (db.rows.filter fun r => decide ((r.id : Int) = id))
  | .findByName, [.str fn, .str ln] =>
      some ((db.rows.filter fun r =>
        colEq db.weight r.firstName fn && colEq db.weight r.lastName ln).take 1)
  | _, _ => none

/-- The table after a data-changing statement, with the number of rows it
changed and the id it generated; `none` when the server rejects it.

* `insertStatement` appends a row under the next AUTO_INCREMENT value (a
  positive `INT UNSIGNED`; the primary key admits no second row with it) with
  `createdDate` defaulting to the current timestamp.
* `updateStatement` overwrites the seven text columns of the rows with the
  given id, leaving `id` and `createdDate`; the count is that of the rows whose
  content changed (the connection string of `dataStoreName` does not ask for
  the count of matched rows).
* `deleteStatement` removes the rows with the given id and counts them.

Bound texts are stored as given: a text that does not fit its column is
rejected by a server in strict mode, which is a failure of `Exec` (`env.exec`). -/
def Stmt.apply (stmt : Stmt) (now : DateTime) (args : List Value) (db : mysqlDB) :
    Option (mysqlDB × Nat × Nat) :=
  match stmt, args with
  | .insert, [.str fn, .str ln, .str ad, .str em, .str ph, .str cb, .str cid] =>
      let id := db.autoIncrement
      if 0 < id ∧ id < 2 ^ 32 ∧ ∀ r ∈ db.rows, r.id ≠ id then
        some ({ db with
                rows := db.rows ++ [⟨id, some fn, some ln, some ad, some em, some ph,
                                      some cb, some cid, some now⟩]
                autoIncrement := id + 1 }, 1, id)
      else none
  | .update, [.str fn, .str ln, .str ad, .str em, .str ph, .str cb, .str cid, .int id] =>
      some ({ db with
              rows := db.rows.map fun r =>
                if (r.id : Int) = id then r.set fn ln ad em ph cb cid else r },
            (db.rows.filter fun r =>
              decide ((r.id : Int) = id) && decide (r.set fn ln ad em ph cb cid ≠ r)).length, 0)
  | .delete, [.int id] =>
      some ({ db with rows := db.rows.filter fun r => decide ((r.id : Int) ≠ id) },
            (db.rows.filter fun r => decide ((r.id : Int) = id)).length, 0)
  | _, _ => none

/-- Method `stmt.Exec(args...)`: records the call, then either the driver's
error or the changed table with its `sql.Result`. -/
def Stmt.Exec (stmt : Stmt) (env : Env) (args : List Value) (db : mysqlDB) :
    mysqlDB × Except Error Result :=
  let db1 := { db with executed := db.executed ++ [(stmt, args)] }
  match env.exec with
  | some e => (db1, .error e)
  | none =>
    match stmt.apply env.now args db1 with
    | none => (db1, .error (.text "Error: statement rejected by the server"))
    | some (db2, affected, lastId) =>
      (db2, .ok
        { LastInsertId := match env.lastInsertId with
            | some e => .error e
            | none => .ok (lastId : Int)
          RowsAffected := match env.rowsAffected with
            | some e => .error e
            | none => .ok (affected : Int) })

/-- A `*sql.Rows` after `Query`: the rows `Next()` delivers before it returns false, and
what `rows.Err()` holds then. -/
structure Rows where
  delivered : List Row
  Err : Option Error

/-- Method `stmt.Query(args...)`: the driver's error, or the rows of the statement.  When
`env.next` is `(k, e)` and the statement selects more than `k` rows, `Next()` delivers `k`
of them and stops with `rows.Err() = e`. -/
def Stmt.Query (stmt : Stmt) (env : Env) (args : List Value) (db : mysqlDB) :
    Except Error Rows :=
  match env.exec with
  | some e => .error e
  | none =>
    match stmt.select args db with
    | none => .error (.text "Error: statement rejected by the server")
    | some rows =>
      match env.next with
      | some (k, e) => if k < rows.length then .ok ⟨rows.take k, some e⟩ else .ok ⟨rows, none⟩
      | none => .ok ⟨rows, none⟩

/-- Interface `rowScanner` (`Scan(dest ...interface{}) error`): what `Scan` will
do, report an error or fill the destinations from a row. -/
abbrev rowScanner := Except Error Row

/-- A `*sql.Rows` positioned on row `r`, as a `rowScanner`. -/
def Rows.scanner (env : Env) (r : Row) : rowScanner :=
  match env.scan with
  | some e => .error e
  | none => .ok r

/-- Method `stmt.QueryRow(args...)` as a `rowScanner`: its `Scan` reports the
query's error, `rows.Err()` or else `sql.ErrNoRows` when no row is delivered, and
scans the first row otherwise. -/
def Stmt.QueryRow (stmt : Stmt) (env : Env) (args : List Value) (db : mysqlDB) : rowScanner :=
  match stmt.Query env args db with
  | .error e => .error e
  | .ok ⟨[], some e⟩ => .error e
  | .ok ⟨[], none⟩ => .error .ErrNoRows
  | .ok ⟨r :: _, _⟩ => Rows.scanner env r

/-! ## db_mysql.go -/

/-- Method `sql.NullString.String` after a scan: the text, empty for `NULL`. -/
def NullString (col : Option String) : String := col.getD ""

/-- The `&Contact{...}` literal of `scanContact`, built from the scanned columns;
`LastEdited` is not among them and keeps Go's zero value. -/
def contactOfRow (r : Row) : Contact :=
  { ID := (r.id : Int)
    FirstName := NullString r.firstName
    LastName := NullString r.lastName
    Address := NullString r.address
    Email := NullString r.email
    Phone := NullString r.phone
    CreatedBy := NullString r.createdBy
    CreatedByID := NullString r.createdById
    CreatedDate := NullString (r.createdDate.map DateTime.text)
    LastEdited := "" }

/-- Function `scanContact` reads a contact from a sql.Row or sql.Rows. -/
def scanContact (s : rowScanner) : Except Error Contact :=
  match s with
  | .error err => .error err
  | .ok r => .ok (contactOfRow r)

/-- The loop `for rows.Next() { contact, err := scanContact(rows); ...; contacts =
append(contacts, contact) }` of the list operations over the delivered rows;
`what` is the text put before the scan error.  (`rows.Err()` is not consulted
after the loop.) -/
def scanRows (what : String) (env : Env) : List Row → List Contact → Except Error (List Contact)
  | [], contacts => .ok contacts
  | r :: rest, contacts =>
    match scanContact (Rows.scanner env r) with
    | .error err => .error (.text (what ++ err.message))
    | .ok contact => scanRows what env rest (contacts ++ [contact])

/-- ListContacts returns a list of contacts, ordered by name. -/
def ListContacts (db : mysqlDB) (env : Env) : Except Error (List Contact) :=
  match Stmt.list.Query env [] db with
  | .error err => .error err
  | .ok rows => scanRows "mysql: could not read row: " env rows.delivered []

/-- ListContactsCreatedBy returns a list of contacts, ordered by name, filtered by
the user who created the contact entry. -/
def ListContactsCreatedBy (db : mysqlDB) (env : Env) (userID : String) :
    Except Error (List Contact) :=
  if userID = "" then ListContacts db env
  else
    match Stmt.listBy.Query env [.str userID] db with
    | .error err => .error err
    | .ok rows => scanRows "mysql: could not read row: " env rows.delivered []

/-- GetContact retrieves a contact by its ID. -/
def GetContact (db : mysqlDB) (env : Env) (id : Int) : Except Error Contact :=
  match scanContact (Stmt.get.QueryRow env [.int id] db) with
  | .error .ErrNoRows => .error (.text ("mysql: could not find contact with id " ++ toString id))
  | .error err => .error (.text ("mysql: could not get contact: " ++ err.message))
  | .ok contact => .ok contact

/-- Function `execAffectingOneRow` executes a given statement, expecting one row
to be affected.  `Exec` is the call `stmt.Exec(args...)`.  Go's `(r, nil)` is
`.ok r`, Go's `(r, err)` with `err != nil` is `.error (r, err)` (`r` is nil when
`Exec` itself failed). -/
def execAffectingOneRow {σ : Type} (Exec : σ → σ × Except Error Result) (s : σ) :
    σ × Except (Option Result × Error) Result :=
  match Exec s with
  | (s1, .error err) => (s1, .error (none, .text ("mysql: could not execute statement: " ++ err.message)))
  | (s1, .ok r) =>
    match r.RowsAffected with
    | .error err => (s1, .error (some r, .text ("mysql: could not get rows affected: " ++ err.message)))
    | .ok rowsAffected =>
      if rowsAffected ≠ 1 then
        (s1, .error (some r,
          .text ("mysql: expected 1 row affected, got " ++ toString rowsAffected)))
      else (s1, .ok r)

/-- AddContact saves a given contact, assigning it a new ID.  Returns the
state after the call and Go's `(id, err)`. -/
def AddContact (db : mysqlDB) (env : Env) (b : Contact) : mysqlDB × (Int × Option Error) :=
  match execAffectingOneRow
      (Stmt.insert.Exec env [.str b.FirstName, .str b.LastName, .str b.Address, .str b.Email,
        .str b.Phone, .str b.CreatedBy, .str b.CreatedByID]) db with
  | (db1, .error (_, err)) => (db1, (0, some err))
  | (db1, .ok r) =>
    match r.LastInsertId with
    | .error err =>
      (db1, (0, some (.text ("mysql: could not get last insert ID: " ++ err.message))))
    | .ok lastInsertID => (db1, (lastInsertID, none))

/-- DeleteContact removes a given contact by its ID. -/
def DeleteContact (db : mysqlDB) (env : Env) (id : Int) : mysqlDB × Option Error :=
  if id = 0 then
    (db, some (errors.New "memorydb: contact with unassigned ID passed into deleteContact"))
  else
    match execAffectingOneRow (Stmt.delete.Exec env [.int id]) db with
    | (db1, .error (_, err)) => (db1, some err)
    | (db1, .ok _) => (db1, none)

/-- UpdateContact updates the entry for a given contact. -/
def UpdateContact (db : mysqlDB) (env : Env) (b : Contact) : mysqlDB × Option Error :=
  if b.ID = 0 then
    (db, some (errors.New "mysql: contact with unassigned ID passed into updateContact"))
  else
    match execAffectingOneRow
        (Stmt.update.Exec env [.str b.FirstName, .str b.LastName, .str b.Address, .str b.Email,
          .str b.Phone, .str b.CreatedBy, .str b.CreatedByID, .int b.ID]) db with
    | (db1, .error (_, err)) => (db1, some err)
    | (db1, .ok _) => (db1, none)

/-- A `*sql.Rows` of `tallyStatement`: the rows `Next()` delivers, each holding the one
column `count(1)`, and what `rows.Err()` holds once `Next()` returned false. -/
structure CountRows where
  delivered : List Int
  Err : Option Error

/-- Method `stmt.Query(args...)` for the counting statement: the driver's error, or the
single row `count(1)` of `tallyStatement`, the number of rows of the table.  When
`env.next` is `(k, e)` and `k` is 0, `Next()` delivers nothing and stops with
`rows.Err() = e`. -/
def Stmt.QueryCount (stmt : Stmt) (env : Env) (args : List Value) (db : mysqlDB) :
    Except Error CountRows :=
  match env.exec with
  | some e => .error e
  | none =>
    match stmt, args with
    | .tally, [] =>
      let rows : List Int := [(db.rows.length : Int)]
      match env.next with
      | some (k, e) => if k < rows.length then .ok ⟨rows.take k, some e⟩ else .ok ⟨rows, none⟩
      | none => .ok ⟨rows, none⟩
    | _, _ => .error (.text "Error: statement rejected by the server")

/-- TallyContacts returns the number of contacts.  Note if tally can not be
determined, -1 is returned as tally value.  (Go's `(tally, err)`.) -/
def TallyContacts (db : mysqlDB) (env : Env) : Int × Option Error :=
  let tallyError : Int := -1
  match Stmt.tally.QueryCount env [] db with
  | .error err => (tallyError, some err)
  | .ok rows =>
    match rows.delivered with
    | tally :: _ =>
      match env.scan with
      | some err => (tallyError, some err)
      | none => (tally, none)
    | [] => (0, none)

/-- FindContactByName looks a contact up by first and last name; `findByNameStatement`
ends in `LIMIT 1`. -/
def FindContactByName (db : mysqlDB) (env : Env) (fn ln : String) :
    Except Error (List Contact) :=
  match Stmt.findByName.Query env [.str fn, .str ln] db with
  | .error err => .error err
  | .ok rows =>
    scanRows "mysql::FindContactByName could not read row: " env rows.delivered []

/-- CreatedByDisplayName returns a string appropriate for displaying the name of
the user who created this contact object. -/
def Contact.CreatedByDisplayName (b : Contact) : String :=
  if b.CreatedByID = "anonymous" then "Anonymous" else b.CreatedBy

/-- SetCreatorAnonymous sets the CreatedByID field to the "anonymous" ID; the
contact after the call. -/
def Contact.SetCreatorAnonymous (b : Contact) : Contact :=
  { b with CreatedBy := "", CreatedByID := "anonymous" }

/-- Connection settings (`type MySQLConfig struct`). -/
structure MySQLConfig where
  Username : String
  Password : String
  Host : String
  Port : Int
  UnixSocket : String
deriving DecidableEq, Repr

/-- Method `dataStoreName` returns a connection string suitable for sql.Open. -/
def MySQLConfig.dataStoreName (c : MySQLConfig) (databaseName : String) : String :=
  let cred : String :=
    if c.Username ≠ "" then
      (if c.Password ≠ "" then c.Username ++ ":" ++ c.Password else c.Username) ++ "@"
    else ""
  if c.UnixSocket ≠ "" then
    cred ++ "unix(" ++ c.UnixSocket ++ ")/" ++ databaseName
  else
    cred ++ "tcp([" ++ c.Host ++ "]:" ++ toString c.Port ++ ")/" ++ databaseName

/-- The settings `configureCloudSQL` passes to `newMySQLDB`: the socket of the instance in
production (`GAE_INSTANCE` set), `localhost` and the given port otherwise. -/
def configureCloudSQL (production : Bool) (Username Password Instance : String) (Port : Int) :
    MySQLConfig :=
  if production then
    { Username := Username, Password := Password, Host := "", Port := 0,
      UnixSocket := "/cloudsql/" ++ Instance }
  else
    { Username := Username, Password := Password, Host := "localhost", Port := Port,
      UnixSocket := "" }

/-! ## Vocabulary of the statements -/

/-- The arguments UpdateContact binds to `updateStatement`. -/
def updateArgs (b : Contact) : List Value :=
  [.str b.FirstName, .str b.LastName, .str b.Address, .str b.Email, .str b.Phone,
    .str b.CreatedBy, .str b.CreatedByID, .int b.ID]

/-- The arguments AddContact binds to `insertStatement`. -/
def insertArgs (b : Contact) : List Value :=
  [.str b.FirstName, .str b.LastName, .str b.Address, .str b.Email, .str b.Phone,
    .str b.CreatedBy, .str b.CreatedByID]

/-- The number of rows `updateStatement` changes. -/
def changedBy (db : mysqlDB) (b : Contact) : Nat :=
  (db.rows.filter fun r =>
    decide ((r.id : Int) = b.ID) &&
      decide (r.set b.FirstName b.LastName b.Address b.Email b.Phone b.CreatedBy b.CreatedByID
        ≠ r)).length

/-- The order of `nameLe` read on returned contacts: by `LastName`, ties by `FirstName`,
both under the collation `w`. -/
def contactLe (w : String → List Nat) (a b : Contact) : Bool :=
  lexLe (w a.LastName) (w b.LastName) &&
    (!lexLe (w b.LastName) (w a.LastName) || lexLe (w a.FirstName) (w b.FirstName))

/-- The message of the error GetContact returns when no row has the identifier. -/
def notFound (id : Int) : String := "mysql: could not find contact with id " ++ toString id

/-- The row `insertStatement` stores for a contact: the next AUTO_INCREMENT value, the
seven bound texts, and the current timestamp as `createdDate`. -/
def insertedRow (db : mysqlDB) (now : DateTime) (b : Contact) : Row :=
  ⟨db.autoIncrement, some b.FirstName, some b.LastName, some b.Address, some b.Email,
    some b.Phone, some b.CreatedBy, some b.CreatedByID, some now⟩

/-- The server accepts an insert: the next AUTO_INCREMENT value is a positive `INT UNSIGNED`
that no stored row carries. -/
def canInsert (db : mysqlDB) : Prop :=
  0 < db.autoIncrement ∧ db.autoIncrement < 2 ^ 32 ∧ ∀ r ∈ db.rows, r.id ≠ db.autoIncrement

/-- The credentials part of a connection string, `[username[:password]@]`, case by case:
empty without a username, the username and `@` without a password, both otherwise. -/
def credentials (c : MySQLConfig) : String :=
  if c.Username = "" then ""
  else if c.Password = "" then c.Username ++ "@"
  else c.Username ++ ":" ++ c.Password ++ "@"

/-- A driver on which `rows.Next()` fails before the first row. -/
def brokenNext : Env := ⟨⟨2017, 8, 21, 12, 0, 0⟩, none, none, none,
  some (0, .text "driver: bad connection"), none⟩

/-! ## Sample data -/

/-- A sample server time. -/
def noon : DateTime := ⟨2017, 8, 21, 12, 0, 0⟩

/-- A sample contact, not yet persisted. -/
def homer : Contact :=
  ⟨0, "Homer", "Simpson", "742 Evergreen Terrace", "homer@example.com", "555-1234",
    "Bob", "bob", "", ""⟩

/-- A freshly created, empty table under the collation of `createTableStatements`. -/
def emptyDB : mysqlDB := ⟨utf8_general_ci, [], 1, []⟩

/-- A table holding two contacts created by `Bob` and `alice`. -/
def twoDB : mysqlDB :=
  ⟨utf8_general_ci,
    [⟨1, some "Homer", some "Simpson", some "742 Evergreen Terrace", some "homer@example.com",
        some "555-1234", some "Bob", some "Bob", some noon⟩,
     ⟨2, some "Ned", some "Flanders", some "744 Evergreen Terrace", some "ned@example.com",
        some "555-8904", some "alice", some "alice", some noon⟩],
    3, []⟩

end Contacts

/-! ## app/app.go and app/webhook.go (package main) -/

namespace Main

open Contacts

/-! ### Formatting -/

/-- An operand of `fmt.Sprintf`: a string, an integer or an `error` (possibly nil). -/
inductive Arg where
  | str (s : String)
  | int (i : Int)
  | err (e : Option Error)
deriving DecidableEq, Repr

/-- What `%v` prints for an operand. -/
def Arg.text : Arg → String
  | .str s => s
  | .int i => toString i
  | .err (some e) => e.message
  | .err none => "<nil>"

/-- How the `%!` diagnostics of `fmt` name an operand: its type and text. -/
def Arg.typed : Arg → String
  | .str s => "string=" ++ s
  | .int i => "int64=" ++ toString i
  | .err (some e) => "*errors.errorString=" ++ e.message
  | .err none => "<nil>"

/-- One verb applied to one operand: `%v` fits every operand, `%s` a string or an
error, `%d` an integer; otherwise `fmt` writes a diagnostic. -/
def fmt.verb (c : Char) (a : Arg) : List Char :=
  let fits : Bool :=
    match c, a with
    | 'v', _ => true
    | 's', .str _ => true
    | 's', .err (some _) => true
    | 'd', .int _ => true
    | _, _ => false
  if fits then a.text.data else '%' :: '!' :: c :: '(' :: (a.typed.data ++ [')'])

/-- The operands left over once the format is used up, as `fmt` reports them. -/
def fmt.extra (v : List Arg) : List Char :=
  "%!(EXTRA ".data ++ (", ".intercalate (v.map Arg.typed)).data ++ [')']

/-- The text of a format with its operands: plain characters are copied, `%%` is a
percent sign, `%c` takes the next operand (`%!c(MISSING)` when there is none). -/
def fmt.format : List Char → List Arg → List Char
  | [], [] => []
  | [], a :: v => fmt.extra (a :: v)
  | ['%'], v => "%!(NOVERB)".data ++ fmt.format [] v
  | '%' :: '%' :: rest, v => '%' :: fmt.format rest v
  | '%' :: c :: rest, [] => '%' :: '!' :: c :: ("(MISSING)".data ++ fmt.format rest [])
  | '%' :: c :: rest, a :: v => fmt.verb c a ++ fmt.format rest v
  | c :: rest, v => c :: fmt.format rest v

/-- Function `fmt.Sprintf` for the verbs the package uses (`%v`, `%s`, `%d`, without
flags). -/
def fmt.Sprintf (format : String) (v : List Arg) : String :=
  String.mk (fmt.format format.data v)

/-- The digits of a decimal numeral as a number; `none` for no digit at all or for
a character that is not a digit. -/
def decimal : List Char → Option Nat
  | [] => none
  | c :: rest =>
    rest.foldl
      (fun acc d => acc.bind fun n =>
        if '0' ≤ d ∧ d ≤ '9' then some (n * 10 + (d.toNat - 48)) else none)
      (if '0' ≤ c ∧ c ≤ '9' then some (c.toNat - 48) else none)

/-- Function `strconv.ParseInt(s, 10, 64)`: an optional sign and decimal digits, within
the range of `int64`.  (The numeral is quoted in the error as it stands.) -/
def strconv.ParseInt (s : String) : Except Error Int :=
  let malformed : Error :=
    .text ("strconv.ParseInt: parsing \"" ++ s ++ "\": invalid syntax")
  let outOfRange : Error :=
    .text ("strconv.ParseInt: parsing \"" ++ s ++ "\": value out of range")
  match s.data with
  | [] => .error malformed
  | c :: rest =>
    let neg : Bool := c == '-'
    let digits : List Char := if c == '+' || c == '-' then rest else c :: rest
    match decimal digits with
    | none => .error malformed
    | some un =>
      if !neg && 2 ^ 63 ≤ un then .error outOfRange
      else if neg && 2 ^ 63 < un then .error outOfRange
      else .ok (if neg then -(un : Int) else (un : Int))

/-! ### Requests and responses -/

/-- A Go `map[string]string` (also `mux.Vars` and the form values of a request): reading
a key that is absent gives the empty string. -/
abbrev StringMap := List (String × String)

/-- Reading `m[key]`. -/
def StringMap.get (m : StringMap) (key : String) : String :=
  (m.lookup key).getD ""

/-- APIAIRequest : Incoming request format from APIAI (the fields holding text;
`Parameters` is `Result.Parameters`, `IntentName` is `Result.Metadata.IntentName`). -/
structure APIAIRequest where
  ID : String
  Parameters : StringMap
  IntentID : String
  IntentName : String
  SessionID : String
deriving DecidableEq, Repr

/-- APIAIMessage : Response Message Structure. -/
structure APIAIMessage where
  Speech : String
  DisplayText : String
  Source : String
deriving DecidableEq, Repr

/-- The projection of a contact carried by a request (`type APIAIContact struct`). -/
structure APIAIContact where
  GivenName : String
  LastName : String
  Address : String
  Email : String
  Phone : String
deriving DecidableEq, Repr

/-- An `*http.Request` as the handlers read it: its method, the variables of the route
(`mux.Vars`), its form values, and what decoding its body as JSON into an
`APIAIRequest` yields. -/
structure Request where
  Method : String
  Vars : StringMap
  Form : StringMap
  Body : Except Error APIAIRequest

/-- The data handed to a template. -/
inductive PageData where
  | none
  | contact (c : Contact)
  | contacts (cs : List Contact)
deriving DecidableEq, Repr

/-- One write to the body of a response: a text, a template executed on data, the short
link of a redirect, or a value encoded as JSON. -/
inductive Written where
  | text (s : String)
  | page (template : String) (data : PageData)
  | link (url : String) (code : Int)
  | json (m : APIAIMessage)
deriving DecidableEq, Repr

/-- An `http.ResponseWriter`: the status line once written, the headers, the body. -/
structure ResponseWriter where
  status : Option Int
  header : StringMap
  body : List Written
deriving DecidableEq, Repr

/-- Method `w.WriteHeader(code)`: the first status written stands. -/
def ResponseWriter.WriteHeader (w : ResponseWriter) (code : Int) : ResponseWriter :=
  match w.status with
  | some _ => w
  | none => { w with status := some code }

/-- Method `w.Header().Set(key, value)`: a header set after the status line was written
does not reach the client. -/
def ResponseWriter.SetHeader (w : ResponseWriter) (key value : String) : ResponseWriter :=
  match w.status with
  | some _ => w
  | none => { w with header := (key, value) :: w.header.filter fun kv => kv.1 ≠ key }

/-- Method `w.Write`: writes status 200 first when no status was written. -/
def ResponseWriter.Write (w : ResponseWriter) (x : Written) : ResponseWriter :=
  let w1 := w.WriteHeader 200
  { w1 with body := w1.body ++ [x] }

/-- Function `http.Error(w, error, code)`: a plain-text reply with the given status. -/
def http.Error (w : ResponseWriter) (error : String) (code : Int) : ResponseWriter :=
  (((w.SetHeader "Content-Type" "text/plain; charset=utf-8").SetHeader
    "X-Content-Type-Options" "nosniff").WriteHeader code).Write (.text (error ++ "\n"))

/-- Function `http.Redirect(w, r, url, code)` for a url that starts with a slash. -/
def http.Redirect (w : ResponseWriter) (r : Request) (url : String) (code : Int) :
    ResponseWriter :=
  let w1 := (w.SetHeader "Location" url).WriteHeader code
  if r.Method = "GET" then w1.Write (.link url code) else w1

/-- The profile of the user of the session (`profileFromSession`, auth.go). -/
structure Profile where
  ID : String
  DisplayName : String
deriving DecidableEq, Repr

/-- A call of a method of the storage interface `contacts.DB`. -/
inductive StorageCall where
  | ListContacts
  | ListContactsCreatedBy (userID : String)
  | GetContact (id : Int)
  | AddContact (b : Contact)
  | DeleteContact (id : Int)
  | UpdateContact (b : Contact)
  | TallyContacts
  | FindContactByName (fn ln : String)
deriving DecidableEq, Repr

/-- What a handler works on: the database behind the global `contacts.DB`, the response
writer, and the record of the calls made on `contacts.DB`, oldest first. -/
structure State where
  db : mysqlDB
  w : ResponseWriter
  calls : List StorageCall

/-- Recording a call on `contacts.DB`. -/
def State.call (st : State) (c : StorageCall) : State :=
  { st with calls := st.calls ++ [c] }

/-- What surrounds one request: the behaviour of the database driver, the failure of
template execution if any, the user of the session if any, and the text `%v`
prints for `time.Now()`. -/
structure Ctx where
  env : Env
  render : Option Error
  user : Option Profile
  clock : String

/-! ### app.go -/

/-- An error of a handler (`type appError struct`). -/
structure appError where
  Error : Option Error
  Message : String
  Code : Int
deriving DecidableEq, Repr

/-- Function `appErrorf`. -/
def appErrorf (err : Option Error) (format : String) (v : List Arg) : appError :=
  { Error := err, Message := fmt.Sprintf format v, Code := 500 }

/-- A handler (`type appHandler func(http.ResponseWriter, *http.Request) *appError`). -/
abbrev appHandler := Ctx → Request → State → State × Option appError

/-- Method `ServeHTTP` of `appHandler`: an error of the handler is answered with its
message under its code. -/
def appHandler.ServeHTTP (fn : appHandler) (cx : Ctx) (r : Request) (st : State) : State :=
  match fn cx r st with
  | (st1, some e) => { st1 with w := http.Error st1.w e.Message e.Code }
  | (st1, none) => st1

/-- Modelled from the spec: method `Execute` of the templates `listTmpl`, `editTmpl` and
`detailTmpl`, defined in template.go, which is not among the sources.  The spec
has handlers render results and has every handler-level failure surface with
the single generic server-error status: a template that executes writes its
page, one that fails gives the error of `appErrorf`. -/
def appTemplate.Execute (template : String) (cx : Ctx) (data : PageData) (st : State) :
    State × Option appError :=
  match cx.render with
  | some err =>
    (st, some (appErrorf (some err) "could not write template: %v" [.err (some err)]))
  | none => ({ st with w := st.w.Write (.page template data) }, none)

/-- listHandler displays a list with summaries of contacts in the database. -/
def listHandler : appHandler := fun cx _ st =>
  let st := st.call .ListContacts
  match Contacts.ListContacts st.db cx.env with
  | .error err =>
    (st, some (appErrorf (some err) "could not list contacts: %v" [.err (some err)]))
  | .ok contacts => appTemplate.Execute "list.html" cx (.contacts contacts) st

/-- contactFromRequest retrieves a contact from the database given a contact ID in the
URL's path. -/
def contactFromRequest (cx : Ctx) (r : Request) (st : State) : State × Except Error Contact :=
  match strconv.ParseInt (r.Vars.get "id") with
  | .error err => (st, .error (.text (fmt.Sprintf "bad contact id: %v" [.err (some err)])))
  | .ok id =>
    let st := st.call (.GetContact id)
    match Contacts.GetContact st.db cx.env id with
    | .error err =>
      (st, .error (.text (fmt.Sprintf "could not find contact: %v" [.err (some err)])))
    | .ok contact => (st, .ok contact)

/-- detailHandler displays the details of a given contact. -/
def detailHandler : appHandler := fun cx r st =>
  match contactFromRequest cx r st with
  | (st, .error err) => (st, some (appErrorf (some err) "%v" [.err (some err)]))
  | (st, .ok contact) => appTemplate.Execute "detail.html" cx (.contact contact) st

/-- addFormHandler displays a form that captures details of a new contact to add to
the database. -/
def addFormHandler : appHandler := fun cx _ st =>
  appTemplate.Execute "edit.html" cx .none st

/-- editFormHandler displays a form that allows the user to edit the details of
a given contact. -/
def editFormHandler : appHandler := fun cx r st =>
  match contactFromRequest cx r st with
  | (st, .error err) => (st, some (appErrorf (some err) "%v" [.err (some err)]))
  | (st, .ok contact) => appTemplate.Execute "edit.html" cx (.contact contact) st

/-- contactFromForm populates the fields of a Contact from form values; its error is
always nil. -/
def contactFromForm (cx : Ctx) (r : Request) : Contact × Option Error :=
  let contact : Contact :=
    { ID := 0
      FirstName := r.Form.get "firstname"
      LastName := r.Form.get "lastname"
      Address := r.Form.get "address"
      Email := r.Form.get "email"
      Phone := r.Form.get "phone"
      CreatedBy := r.Form.get "createdBy"
      CreatedByID := r.Form.get "createdByID"
      CreatedDate := ""
      LastEdited := "" }
  if contact.CreatedByID = "" then
    match cx.user with
    | some user => ({ contact with CreatedBy := user.DisplayName, CreatedByID := user.ID }, none)
    | none => (contact.SetCreatorAnonymous, none)
  else (contact, none)

/-- createHandler adds a contact to the database. -/
def createHandler : appHandler := fun cx r st =>
  match contactFromForm cx r with
  | (_, some err) =>
    (st, some (appErrorf (some err) "could not parse contact from form: %v" [.err (some err)]))
  | (contact, none) =>
    let st := st.call (.AddContact contact)
    match Contacts.AddContact st.db cx.env contact with
    | (db1, (_, some err)) =>
      ({ st with db := db1 },
        some (appErrorf (some err) "could not save contact: %v" [.err (some err)]))
    | (db1, (id, none)) =>
      ({ st with
          db := db1
          w := http.Redirect st.w r (fmt.Sprintf "/contacts/%d" [.int id]) 302 }, none)

/-- updateHandler updates the details of a given contact. -/
def updateHandler : appHandler := fun cx r st =>
  match strconv.ParseInt (r.Vars.get "id") with
  | .error err => (st, some (appErrorf (some err) "bad contact id: %v" [.err (some err)]))
  | .ok id =>
    match contactFromForm cx r with
    | (_, some err) =>
      (st, some (appErrorf (some err) "could not parse contact from form: %v"
        [.err (some err)]))
    | (contact0, none) =>
      let contact : Contact := { contact0 with ID := id }
      let st := st.call (.UpdateContact contact)
      match Contacts.UpdateContact st.db cx.env contact with
      | (db1, some err) =>
        ({ st with db := db1 },
          some (appErrorf (some err) "could not update contact: %v" [.err (some err)]))
      | (db1, none) =>
        ({ st with
            db := db1
            w := http.Redirect st.w r (fmt.Sprintf "/contacts/%d" [.int contact.ID]) 302 },
          none)

/-- deleteHandler deletes a given contact. -/
def deleteHandler : appHandler := fun cx r st =>
  match strconv.ParseInt (r.Vars.get "id") with
  | .error err => (st, some (appErrorf (some err) "bad contact id: %v" [.err (some err)]))
  | .ok id =>
    let st := st.call (.DeleteContact id)
    match Contacts.DeleteContact st.db cx.env id with
    | (db1, some err) =>
      ({ st with db := db1 },
        some (appErrorf (some err) "could not delete contact: %v" [.err (some err)]))
    | (db1, none) => ({ st with db := db1, w := http.Redirect st.w r "/contacts" 302 }, none)

/-! ### webhook.go -/

/-- The `&APIAIContact{...}` literal of `extractContactFromAPIAIRequest`. -/
def APIAIContact.ofParameters (p : StringMap) : APIAIContact :=
  { GivenName := p.get "given-name"
    LastName := p.get "last-name"
    Address := p.get "address"
    Email := p.get "email"
    Phone := p.get "phone-number" }

/-- Function `extractContactFromAPIAIRequest`; `none` is the nil pointer.  (On nil the
source also builds an `appErrorf` value that nobody receives.) -/
def extractContactFromAPIAIRequest (ar : Option APIAIRequest) : Option APIAIContact :=
  match ar with
  | none => none
  | some ar => some (APIAIContact.ofParameters ar.Parameters)

/-- Function `tallyContacts` of the webhook: the state, the message `rj` after the call
and the error returned. -/
def tallyContacts (cx : Ctx) (_ar : APIAIRequest) (rj : APIAIMessage) (st : State) :
    State × APIAIMessage × Option Error :=
  let st := st.call .TallyContacts
  match Contacts.TallyContacts st.db cx.env with
  | (_, some err) =>
    let speech := fmt.Sprintf "Error: tallying contacts, %v" [.err (some err)]
    (st, { rj with Speech := speech, DisplayText := speech }, some err)
  | (tally, none) =>
    let speech := fmt.Sprintf "Tally %d for contacts as of %v" [.int tally, .str cx.clock]
    (st, { rj with Speech := speech, DisplayText := speech }, none)

/-- Function `findContact` of the webhook.  (`t` is never nil here; reading through a
nil `t` would stop the handler.) -/
def findContact (cx : Ctx) (ar : APIAIRequest) (rj : APIAIMessage) (st : State) :
    State × APIAIMessage × Option Error :=
  match extractContactFromAPIAIRequest (some ar) with
  | none => (st, rj, some (.text "runtime error: invalid memory address or nil pointer dereference"))
  | some t =>
    let st := st.call (.FindContactByName t.GivenName t.LastName)
    match Contacts.FindContactByName st.db cx.env t.GivenName t.LastName with
    | .error err =>
      let speech := fmt.Sprintf "Error looking up contact %s %s, %v"
        [.str t.GivenName, .str t.LastName, .err (some err)]
      (st, { rj with Speech := speech, DisplayText := speech }, some err)
    | .ok [] =>
      let speech := fmt.Sprintf "No contact found for first name %s, last name: %s"
        [.str t.GivenName, .str t.LastName]
      (st, { rj with Speech := speech, DisplayText := speech }, none)
    | .ok (c :: _) =>
      let speech :=
        fmt.Sprintf "Found: %s %s at address: %s, with phone number: %s and email: %s"
          [.str c.FirstName, .str c.LastName, .str c.Address, .str c.Phone, .str c.Email]
      (st, { rj with Speech := speech, DisplayText := speech }, none)

/-- Function `addContact` of the webhook. -/
def addContact (cx : Ctx) (_ar : APIAIRequest) (rj : APIAIMessage) (st : State) :
    State × APIAIMessage × Option Error :=
  let numContacts : Int := 0
  let speech := fmt.Sprintf "You have %d contacts as of %v" [.int numContacts, .str cx.clock]
  (st, { rj with Speech := speech, DisplayText := speech }, none)

/-- Function `updateContact` of the webhook. -/
def updateContact (cx : Ctx) (_ar : APIAIRequest) (rj : APIAIMessage) (st : State) :
    State × APIAIMessage × Option Error :=
  let numContacts : Int := 0
  let speech := fmt.Sprintf "You have %d contacts as of %v" [.int numContacts, .str cx.clock]
  (st, { rj with Speech := speech, DisplayText := speech }, none)

/-- Function `deleteContact` of the webhook. -/
def deleteContact (cx : Ctx) (_ar : APIAIRequest) (rj : APIAIMessage) (st : State) :
    State × APIAIMessage × Option Error :=
  let numContacts : Int := 0
  let speech := fmt.Sprintf "You have %d contacts as of %v" [.int numContacts, .str cx.clock]
  (st, { rj with Speech := speech, DisplayText := speech }, none)

/-- Function `unhandledIntent` of the webhook. -/
def unhandledIntent (cx : Ctx) (_ar : APIAIRequest) (rj : APIAIMessage) (st : State) :
    State × APIAIMessage × Option Error :=
  let numContacts : Int := 0
  let speech := fmt.Sprintf "You have %d contacts as of %v" [.int numContacts, .str cx.clock]
  (st, { rj with Speech := speech, DisplayText := speech }, none)

/-- The `switch intent` of `webhookHandler`. -/
def dispatch (intent : String) (cx : Ctx) (ar : APIAIRequest) (rj : APIAIMessage)
    (st : State) : State × APIAIMessage × Option Error :=
  if intent = "number_of_contacts" then tallyContacts cx ar rj st
  else if intent = "find_contact" then findContact cx ar rj st
  else if intent = "add_contact" then addContact cx ar rj st
  else if intent = "update_contact" then updateContact cx ar rj st
  else if intent = "delete_contact" then deleteContact cx ar rj st
  else unhandledIntent cx ar rj st

/-- Handler `webhookHandler`, the fulfillment hook.  After `http.Error` on a method
other than POST the source goes on: there is no `return` in that branch. -/
def webhookHandler : appHandler := fun cx r st =>
  let st :=
    if "POST" ≠ r.Method then
      { st with w := http.Error st.w ("Error, expected POST, received: " ++ r.Method) 405 }
    else st
  match r.Body with
  | .error err =>
    (st, some (appErrorf (some err) "Decode of request failed: %v" [.err (some err)]))
  | .ok ar =>
    let respJson : APIAIMessage :=
      { Speech := "Unprocessed Speech value"
        DisplayText := "Unprocessed DisplayText value"
        Source := "rjj-work@gmail.com yum-contacts programming exercise" }
    let intent := ar.IntentName
    match dispatch intent cx ar respJson st with
    | (st, _, some err) =>
      (st, some (appErrorf (some err) "Processing of INTENT: %s failed: %v"
        [.str intent, .err (some err)]))
    | (st, respJson, none) =>
      ({ st with w := (st.w.SetHeader "Content-Type" "application/json").Write (.json respJson) },
        none)

/-- The message `respJson` of `webhookHandler` before the intent is processed. -/
def unprocessed : APIAIMessage :=
  { Speech := "Unprocessed Speech value"
    DisplayText := "Unprocessed DisplayText value"
    Source := "rjj-work@gmail.com yum-contacts programming exercise" }

/-- The state of `webhookHandler` after its `if "POST" != r.Method` statement. -/
def afterMethodCheck (r : Request) (st : State) : State :=
  if "POST" ≠ r.Method then
    { st with w := http.Error st.w ("Error, expected POST, received: " ++ r.Method) 405 }
  else st

/-- The message the stubs of the webhook report: 0 contacts as of the current time. -/
def placeholder (cx : Ctx) : String := "You have 0 contacts as of " ++ cx.clock

/-- The message whose Speech and DisplayText are the given text, under the source
`webhookHandler` signs with. -/
def answer (speech : String) : APIAIMessage :=
  { Speech := speech, DisplayText := speech,
    Source := "rjj-work@gmail.com yum-contacts programming exercise" }

/-- The response writer once `webhookHandler` has encoded a message: the writer left by
the method check, with the JSON content type set and the message written. -/
def reply (r : Request) (st : State) (m : APIAIMessage) : ResponseWriter :=
  ((afterMethodCheck r st).w.SetHeader "Content-Type" "application/json").Write (.json m)

/-- The route of `registerHandlers` for the webhook,
`r.Methods("POST").Path("/contactsWebhook").Handler(appHandler(webhookHandler))`: the
handler it runs for a request of the given method and path, if it matches. -/
def webhookRoute (method path : String) : Option appHandler :=
  if method = "POST" ∧ path = "/contactsWebhook" then some webhookHandler else none

/-! ### Sample requests -/

/-- A response writer nothing was written to. -/
def freshWriter : ResponseWriter := ⟨none, [], []⟩

/-- The two-row table behind `contacts.DB`, a fresh response writer, no call made yet. -/
def twoState : State := ⟨twoDB, freshWriter, []⟩

/-- A working driver, working templates, nobody logged in. -/
def calm : Ctx := ⟨Env.healthy noon, none, none, "2017-08-21 12:00:00 +0000 UTC"⟩

/-- The request `GET /contacts/7`. -/
def getSeven : Request := ⟨"GET", [("id", "7")], [], .error (.text "EOF")⟩

/-- A request asking for the number of contacts. -/
def howMany : APIAIRequest := ⟨"1", [], "i-1", "number_of_contacts", "s-1"⟩

/-- The request for the number of contacts, sent with the method GET. -/
def getHowMany : Request := ⟨"GET", [], [], .ok howMany⟩

/-- A request asking for the contact of Ned Flanders. -/
def findNed : APIAIRequest :=
  ⟨"3", [("given-name", "Ned"), ("last-name", "Flanders")], "i-3", "find_contact", "s-1"⟩

/-- The contact of Ned Flanders as the two-row table returns it. -/
def ned : Contact :=
  ⟨2, "Ned", "Flanders", "744 Evergreen Terrace", "ned@example.com", "555-8904", "alice",
    "alice", "2017-08-21 12:00:00", ""⟩

/-- The request for the number of contacts, sent with the method POST. -/
def postHowMany : Request := ⟨"POST", [], [], .ok howMany⟩

/-- The request for Ned Flanders, sent with the method POST. -/
def postFindNed : Request := ⟨"POST", [], [], .ok findNed⟩

/-- A request with the intent `add_contact` and the parameters of a contact. -/
def addMarge : APIAIRequest :=
  ⟨"2", [("given-name", "Marge"), ("last-name", "Simpson"), ("color", "blue")], "i-2",
    "add_contact", "s-1"⟩

end Main

namespace Contacts

/-! ## Properties -/

/-- No row has identifier `id`: the `WHERE id = ?` filter selects nothing. -/
theorem filter_id_eq_nil (rows : List Row) (id : Int) (h : ∀ r ∈ rows, (r.id : Int) ≠ id) :
    rows.filter (fun r => decide ((r.id : Int) = id)) = [] := by
  rw [List.filter_eq_nil_iff]
  intro r hr
  simpa using h r hr

/-- The outcome of `execAffectingOneRow` in terms of the outcome of `Exec`. -/
theorem execAffectingOneRow_ok_iff {σ : Type} (Exec : σ → σ × Except Error Result) (s : σ)
    (r : Result) :
    (execAffectingOneRow Exec s).2 = .ok r ↔ (Exec s).2 = .ok r ∧ r.RowsAffected = .ok 1 := by
  unfold execAffectingOneRow
  rcases hE : Exec s with ⟨s1, out⟩
  cases out with
  | error e => simp
  | ok r0 =>
    cases hra : r0.RowsAffected with
    | error e =>
      simp only [hra]
      constructor
      · intro h; cases h
      · rintro ⟨h1, h2⟩
        cases h1
        rw [hra] at h2
        cases h2
    | ok n =>
      simp only [hra]
      by_cases hn : n = 1
      · subst hn
        simp only [ne_eq, not_true_eq_false, if_false]
        constructor
        · intro h; cases h; exact ⟨rfl, hra⟩
        · rintro ⟨h1, _⟩; cases h1; rfl
      · simp only [ne_eq, hn, not_false_eq_true, if_true]
        constructor
        · intro h; cases h
        · rintro ⟨h1, h2⟩
          cases h1
          rw [hra] at h2
          cases h2
          exact absurd rfl hn

/-- The state `execAffectingOneRow` leaves is the one `Exec` leaves. -/
theorem execAffectingOneRow_state {σ : Type} (Exec : σ → σ × Except Error Result) (s : σ) :
    (execAffectingOneRow Exec s).1 = (Exec s).1 := by
  unfold execAffectingOneRow
  rcases hE : Exec s with ⟨s1, out⟩
  cases out with
  | error e => rfl
  | ok r0 =>
    cases hra : r0.RowsAffected with
    | error e => simp [hra]
    | ok n => by_cases hn : n = 1 <;> simp [hra, hn]

/-- C1: a contact whose ID is 0 is rejected by UpdateContact with a non-nil
error, and so is id 0 by DeleteContact; in both cases the state is returned
as it was: no statement is executed and the stored records are unchanged. -/
theorem C1_unassigned_id_rejected (db : mysqlDB) (env : Env) (b : Contact) (h : b.ID = 0) :
    ((UpdateContact db env b).2 ≠ none ∧ (UpdateContact db env b).1 = db ∧
        (UpdateContact db env b).1.executed = db.executed ∧
        (UpdateContact db env b).1.rows = db.rows) ∧
      ((DeleteContact db env 0).2 ≠ none ∧ (DeleteContact db env 0).1 = db ∧
        (DeleteContact db env 0).1.executed = db.executed ∧
        (DeleteContact db env 0).1.rows = db.rows) := by
  simp [UpdateContact, DeleteContact, h]

/-- C3: with the empty owner identifier ListContactsCreatedBy is ListContacts:
the same contacts in the same order, or the same error. -/
theorem C3_empty_owner_is_list (db : mysqlDB) (env : Env) :
    ListContactsCreatedBy db env "" = ListContacts db env := by
  simp [ListContactsCreatedBy]

/-- UpdateContact with an assigned ID succeeds exactly when its `Exec` does and
reports one affected row; it leaves the state `Exec` leaves. -/
theorem UpdateContact_assigned (db : mysqlDB) (env : Env) (b : Contact) (hb : b.ID ≠ 0) :
    ((UpdateContact db env b).2 = none ↔
      ∃ r, (Stmt.update.Exec env (updateArgs b) db).2 = .ok r ∧ r.RowsAffected = .ok 1) ∧
    (UpdateContact db env b).1 = (Stmt.update.Exec env (updateArgs b) db).1 := by
  have hiff := execAffectingOneRow_ok_iff (Stmt.update.Exec env (updateArgs b)) db
  have hst := execAffectingOneRow_state (Stmt.update.Exec env (updateArgs b)) db
  unfold UpdateContact
  rw [if_neg hb]
  unfold updateArgs at hiff hst
  rcases hx : execAffectingOneRow (Stmt.update.Exec env _) db with ⟨db1, res⟩
  rw [hx] at hiff hst
  cases res with
  | error e =>
    refine ⟨⟨fun h => (by cases h), ?_⟩, hst⟩
    rintro ⟨r, hr⟩
    have := (hiff r).2 hr
    cases this
  | ok r => exact ⟨⟨fun _ => ⟨r, (hiff r).1 rfl⟩, fun _ => rfl⟩, hst⟩

/-- DeleteContact with a nonzero id succeeds exactly when its `Exec` does and
reports one affected row; it leaves the state `Exec` leaves. -/
theorem DeleteContact_assigned (db : mysqlDB) (env : Env) (id : Int) (hid : id ≠ 0) :
    ((DeleteContact db env id).2 = none ↔
      ∃ r, (Stmt.delete.Exec env [.int id] db).2 = .ok r ∧ r.RowsAffected = .ok 1) ∧
    (DeleteContact db env id).1 = (Stmt.delete.Exec env [.int id] db).1 := by
  have hiff := execAffectingOneRow_ok_iff (Stmt.delete.Exec env [.int id]) db
  have hst := execAffectingOneRow_state (Stmt.delete.Exec env [.int id]) db
  unfold DeleteContact
  rw [if_neg hid]
  rcases hx : execAffectingOneRow (Stmt.delete.Exec env _) db with ⟨db1, res⟩
  rw [hx] at hiff hst
  cases res with
  | error e =>
    refine ⟨⟨fun h => (by cases h), ?_⟩, hst⟩
    rintro ⟨r, hr⟩
    have := (hiff r).2 hr
    cases this
  | ok r => exact ⟨⟨fun _ => ⟨r, (hiff r).1 rfl⟩, fun _ => rfl⟩, hst⟩

/-- What `Exec` of `updateStatement` answers when it answers at all. -/
theorem update_Exec_ok (db : mysqlDB) (env : Env) (b : Contact) (r : Result)
    (h : (Stmt.update.Exec env (updateArgs b) db).2 = .ok r) :
    env.exec = none ∧
      r.RowsAffected = (match env.rowsAffected with
        | some e => .error e
        | none => .ok (changedBy db b : Int)) := by
  unfold Stmt.Exec updateArgs at h
  cases hexec : env.exec with
  | some e => simp [hexec] at h
  | none =>
    simp only [hexec, Stmt.apply] at h
    refine ⟨rfl, ?_⟩
    cases h
    rfl

/-- What `Exec` of `deleteStatement` answers when it answers at all. -/
theorem delete_Exec_ok (db : mysqlDB) (env : Env) (id : Int) (r : Result)
    (h : (Stmt.delete.Exec env [.int id] db).2 = .ok r) :
    env.exec = none ∧
      r.RowsAffected = (match env.rowsAffected with
        | some e => .error e
        | none => .ok (((db.rows.filter fun r => decide ((r.id : Int) = id)).length : Nat) : Int)) := by
  unfold Stmt.Exec at h
  cases hexec : env.exec with
  | some e => simp [hexec] at h
  | none =>
    simp only [hexec, Stmt.apply] at h
    refine ⟨rfl, ?_⟩
    cases h
    rfl

/-- C2: execAffectingOneRow returns a nil error (and the result `r`) exactly
when `Exec` succeeded with `r`, the affected-row count of `r` could be read and
is 1.  Consequently UpdateContact with a nonzero ID, and DeleteContact with a
nonzero id, return a non-nil error when no stored record has that identifier,
whatever the driver reports; when the driver reports no failure the error is
the one for 0 affected rows. -/
theorem C2_exactly_one_row_affected :
    (∀ (Exec : mysqlDB → mysqlDB × Except Error Result) (db : mysqlDB) (r : Result),
      (execAffectingOneRow Exec db).2 = .ok r ↔
        (Exec db).2 = .ok r ∧ r.RowsAffected = .ok 1) ∧
    (∀ (db : mysqlDB) (env : Env) (b : Contact), b.ID ≠ 0 →
      (∀ r ∈ db.rows, (r.id : Int) ≠ b.ID) →
      (UpdateContact db env b).2 ≠ none ∧
      ∀ now, (UpdateContact db (Env.healthy now) b).2 =
        some (.text "mysql: expected 1 row affected, got 0")) ∧
    (∀ (db : mysqlDB) (env : Env) (id : Int), id ≠ 0 →
      (∀ r ∈ db.rows, (r.id : Int) ≠ id) →
      (DeleteContact db env id).2 ≠ none ∧
      ∀ now, (DeleteContact db (Env.healthy now) id).2 =
        some (.text "mysql: expected 1 row affected, got 0")) := by
  refine ⟨fun Exec db r => execAffectingOneRow_ok_iff Exec db r, ?_, ?_⟩
  · intro db env b hb hno
    have hch : changedBy db b = 0 := by
      unfold changedBy
      rw [List.length_eq_zero, List.filter_eq_nil_iff]
      intro r hr
      simp [hno r hr]
    constructor
    · intro hnone
      obtain ⟨r, hr, h1⟩ := ((UpdateContact_assigned db env b hb).1).1 hnone
      have h2 := (update_Exec_ok db env b r hr).2
      rw [h1, hch] at h2
      cases hra : env.rowsAffected with
      | some e => simp [hra] at h2
      | none =>
        simp only [hra] at h2
        cases h2
    · intro now
      have hf : db.rows.filter (fun r => decide ((r.id : Int) = b.ID) &&
          decide (r.set b.FirstName b.LastName b.Address b.Email b.Phone b.CreatedBy
            b.CreatedByID ≠ r)) = [] := by
        rw [List.filter_eq_nil_iff]
        intro r hr
        simp [hno r hr]
      simp only [UpdateContact, if_neg hb, execAffectingOneRow, Stmt.Exec, Env.healthy,
        Stmt.apply, hf]
      rfl
  · intro db env id hid hno
    have hf := filter_id_eq_nil db.rows id hno
    constructor
    · intro hnone
      obtain ⟨r, hr, h1⟩ := ((DeleteContact_assigned db env id hid).1).1 hnone
      have h2 := (delete_Exec_ok db env id r hr).2
      rw [h1, hf] at h2
      cases hra : env.rowsAffected with
      | some e => simp [hra] at h2
      | none =>
        simp only [hra] at h2
        cases h2
    · intro now
      simp only [DeleteContact, if_neg hid, execAffectingOneRow, Stmt.Exec, Env.healthy,
        Stmt.apply, hf]
      rfl

/-! ### The scan loop and the order of `ORDER BY` -/

/-- When `Scan` does not fail the loop appends the contact of every delivered row. -/
theorem scanRows_of_scan_ok (what : String) (env : Env) (hs : env.scan = none)
    (rows : List Row) (contacts : List Contact) :
    scanRows what env rows contacts = .ok (contacts ++ rows.map contactOfRow) := by
  induction rows generalizing contacts with
  | nil => simp [scanRows]
  | cons r rest ih =>
    simp [scanRows, Rows.scanner, hs, scanContact, ih]

/-- Whatever the driver reports, the contacts the loop returns come from delivered rows. -/
theorem scanRows_ok_eq (what : String) (env : Env) (rows : List Row)
    (contacts out : List Contact) (h : scanRows what env rows contacts = .ok out) :
    out = contacts ++ rows.map contactOfRow := by
  induction rows generalizing contacts with
  | nil =>
    simp only [scanRows] at h
    cases h
    simp
  | cons r rest ih =>
    unfold scanRows at h
    cases hs : env.scan with
    | some e => simp [Rows.scanner, hs, scanContact] at h
    | none =>
      simp only [Rows.scanner, hs, scanContact] at h
      simpa using ih _ h

theorem lexLe_refl (a : List Nat) : lexLe a a = true := by
  induction a with
  | nil => rfl
  | cons x xs ih => simp [lexLe, ih]

theorem lexLe_total (a b : List Nat) : lexLe a b = true ∨ lexLe b a = true := by
  induction a generalizing b with
  | nil => simp [lexLe]
  | cons x xs ih =>
    cases b with
    | nil => simp [lexLe]
    | cons y ys =>
      simp only [lexLe, Bool.or_eq_true, Bool.and_eq_true, decide_eq_true_eq]
      rcases Nat.lt_trichotomy x y with h | h | h
      · exact Or.inl (Or.inl h)
      · subst h
        rcases ih ys with h1 | h1
        · exact Or.inl (Or.inr ⟨rfl, h1⟩)
        · exact Or.inr (Or.inr ⟨rfl, h1⟩)
      · exact Or.inr (Or.inl h)

theorem lexLe_trans (a b c : List Nat) (hab : lexLe a b = true) (hbc : lexLe b c = true) :
    lexLe a c = true := by
  induction a generalizing b c with
  | nil => simp [lexLe]
  | cons x xs ih =>
    cases b with
    | nil => simp [lexLe] at hab
    | cons y ys =>
      cases c with
      | nil => simp [lexLe] at hbc
      | cons z zs =>
        simp only [lexLe, Bool.or_eq_true, Bool.and_eq_true, decide_eq_true_eq] at hab hbc ⊢
        rcases hab with h1 | ⟨h1, h1r⟩ <;> rcases hbc with h2 | ⟨h2, h2r⟩
        · exact Or.inl (lt_trans h1 h2)
        · exact Or.inl (h2 ▸ h1)
        · exact Or.inl (h1 ▸ h2)
        · exact Or.inr ⟨h1.trans h2, ih ys zs h1r h2r⟩

theorem keyLe_total (w : String → List Nat) (a b : Option String) :
    keyLe w a b = true ∨ keyLe w b a = true := by
  cases a <;> cases b <;> simp [keyLe, lexLe_total]

theorem keyLe_trans (w : String → List Nat) (a b c : Option String)
    (hab : keyLe w a b = true) (hbc : keyLe w b c = true) : keyLe w a c = true := by
  cases a <;> cases b <;> cases c <;> simp_all [keyLe]
  exact lexLe_trans _ _ _ hab hbc

theorem nameLe_total (w : String → List Nat) (a b : Row) :
    nameLe w a b = true ∨ nameLe w b a = true := by
  unfold nameLe
  rcases keyLe_total w a.lastName b.lastName with h | h <;>
    rcases keyLe_total w a.firstName b.firstName with h2 | h2 <;>
    cases h3 : keyLe w a.lastName b.lastName <;>
    cases h4 : keyLe w b.lastName a.lastName <;>
    simp_all

theorem nameLe_trans (w : String → List Nat) (a b c : Row)
    (hab : nameLe w a b = true) (hbc : nameLe w b c = true) : nameLe w a c = true := by
  unfold nameLe at *
  simp only [Bool.and_eq_true, Bool.or_eq_true, Bool.not_eq_true'] at hab hbc ⊢
  obtain ⟨h1, h1r⟩ := hab
  obtain ⟨h2, h2r⟩ := hbc
  refine ⟨keyLe_trans w _ _ _ h1 h2, ?_⟩
  cases hca : keyLe w c.lastName a.lastName with
  | false => exact Or.inl rfl
  | true =>
    right
    have hba : keyLe w b.lastName a.lastName = true := keyLe_trans w _ _ _ h2 hca
    have hcb : keyLe w c.lastName b.lastName = true := keyLe_trans w _ _ _ hca h1
    rw [hba] at h1r
    rw [hcb] at h2r
    simp only [Bool.true_eq_false, false_or] at h1r h2r
    exact keyLe_trans w _ _ _ h1r h2r

/-- The clause `ORDER BY lastName, firstName` returns the rows it is given, each once, in order. -/
theorem orderByName_spec (w : String → List Nat) (rows : List Row) :
    (orderByName w rows).Perm rows ∧
      (orderByName w rows).Sorted (fun a b => nameLe w a b = true) := by
  haveI : IsTotal Row (fun a b => nameLe w a b = true) := ⟨nameLe_total w⟩
  haveI : IsTrans Row (fun a b => nameLe w a b = true) := ⟨nameLe_trans w⟩
  exact ⟨List.perm_insertionSort _ rows, List.sorted_insertionSort _ rows⟩

/-- Inserting below every element of a list puts the row in front. -/
theorem orderedInsert_of_le_all (w : String → List Nat) (a : Row) (l : List Row)
    (h : ∀ x ∈ l, nameLe w a x = true) :
    List.orderedInsert (fun a b => nameLe w a b = true) a l = a :: l := by
  cases l with
  | nil => rfl
  | cons b t => exact List.orderedInsert_of_le _ t (h b (List.mem_cons_self _ _))

/-- A `WHERE` filter applied after inserting a row into ordered rows. -/
theorem filter_orderedInsert (w : String → List Nat) (p : Row → Bool) (a : Row) (s : List Row)
    (hs : s.Sorted (fun a b => nameLe w a b = true)) :
    (List.orderedInsert (fun a b => nameLe w a b = true) a s).filter p =
      if p a = true then List.orderedInsert (fun a b => nameLe w a b = true) a (s.filter p)
      else s.filter p := by
  induction s with
  | nil => cases hpa : p a <;> simp [List.orderedInsert, hpa]
  | cons b t ih =>
    have hb : ∀ x ∈ t, nameLe w b x = true := List.rel_of_sorted_cons hs
    have ih2 := ih hs.of_cons
    by_cases hab : nameLe w a b = true
    · rw [List.orderedInsert_of_le _ t hab]
      cases hpa : p a
      · simp [List.filter_cons, hpa]
      · rw [List.filter_cons_of_pos hpa, if_pos rfl, orderedInsert_of_le_all]
        intro x hx
        rcases List.mem_cons.1 (List.mem_of_mem_filter hx) with h | h
        · exact h ▸ hab
        · exact nameLe_trans w a b x hab (hb x h)
    · have hins : ∀ l : List Row, List.orderedInsert (fun a b => nameLe w a b = true) a (b :: l) =
          b :: List.orderedInsert (fun a b => nameLe w a b = true) a l := by
        intro l
        rw [List.orderedInsert, if_neg hab]
      rw [hins t]
      cases hpb : p b
      · rw [List.filter_cons_of_neg (by simp [hpb]), List.filter_cons_of_neg (by simp [hpb])]
        exact ih2
      · rw [List.filter_cons_of_pos hpb, List.filter_cons_of_pos hpb, ih2]
        cases hpa : p a
        · simp
        · simp only [if_true]
          rw [hins]

/-- Filtering the ordered rows gives the filtered rows in order: the order of the rows
that remain is the one they had among all rows. -/
theorem filter_orderByName (w : String → List Nat) (p : Row → Bool) (rows : List Row) :
    (orderByName w rows).filter p = orderByName w (rows.filter p) := by
  induction rows with
  | nil => rfl
  | cons a t ih =>
    have hsorted := (orderByName_spec w t).2
    unfold orderByName at ih hsorted ⊢
    rw [List.insertionSort, filter_orderedInsert w p a _ hsorted]
    cases hpa : p a
    · rw [List.filter_cons_of_neg (by simp [hpa])]
      simpa using ih
    · rw [List.filter_cons_of_pos hpa, List.insertionSort, ← ih]
      simp

/-- On rows whose names are not `NULL` the order of `ORDER BY` is the order read on the
contacts returned for them. -/
theorem nameLe_eq_contactLe (w : String → List Nat) (a b : Row)
    (ha : a.lastName ≠ none ∧ a.firstName ≠ none) (hb : b.lastName ≠ none ∧ b.firstName ≠ none) :
    nameLe w a b = contactLe w (contactOfRow a) (contactOfRow b) := by
  rcases a with ⟨ia, fa, la, _, _, _, _, _, _⟩
  rcases b with ⟨ib, fb, lb, _, _, _, _, _, _⟩
  cases fa <;> cases la <;> cases fb <;> cases lb <;>
    simp_all [nameLe, contactLe, keyLe, contactOfRow, NullString]

/-- What ListContacts returns when the driver reports no failure. -/
theorem ListContacts_healthy (db : mysqlDB) (now : DateTime) :
    ListContacts db (Env.healthy now) = .ok ((orderByName db.weight db.rows).map contactOfRow) := by
  simp [ListContacts, Stmt.Query, Stmt.select, Env.healthy, scanRows_of_scan_ok]

/-- C9: when the driver reports no failure ListContacts returns the contacts of
a rearrangement of the stored rows, each stored row once, in the ascending
order of `ORDER BY lastName, firstName` (last name first, ties by first name,
names compared under the collation of the table, `NULL` before any text),
whatever the storage order of the rows; where no stored name is `NULL` the
returned contacts are in that order by their own LastName and FirstName; and
for an empty table the answer is the empty sequence with a nil error. -/
theorem C9_list_sorted_by_name (db : mysqlDB) (now : DateTime) :
    (∃ rows : List Row,
      ListContacts db (Env.healthy now) = .ok (rows.map contactOfRow) ∧
      rows.Perm db.rows ∧
      rows.Sorted (fun a b => nameLe db.weight a b = true) ∧
      ((∀ r ∈ db.rows, r.lastName ≠ none ∧ r.firstName ≠ none) →
        (rows.map contactOfRow).Sorted (fun a b => contactLe db.weight a b = true))) ∧
    (db.rows = [] → ListContacts db (Env.healthy now) = .ok []) := by
  obtain ⟨hperm, hsorted⟩ := orderByName_spec db.weight db.rows
  refine ⟨⟨orderByName db.weight db.rows, ListContacts_healthy db now, hperm, hsorted, ?_⟩, ?_⟩
  · intro hnn
    unfold List.Sorted
    rw [List.pairwise_map]
    refine List.Pairwise.imp_of_mem ?_ hsorted
    intro a b ha hb hab
    rw [← nameLe_eq_contactLe db.weight a b (hnn a (hperm.mem_iff.1 ha))
      (hnn b (hperm.mem_iff.1 hb))]
    exact hab
  · intro hempty
    rw [ListContacts_healthy, hempty]
    rfl

/-- What GetContact returns when the driver reports no failure: the contact of
the first row with the identifier, the not-found error when there is none. -/
theorem GetContact_healthy (db : mysqlDB) (now : DateTime) (id : Int) :
    GetContact db (Env.healthy now) id =
      match db.rows.filter (fun r => decide ((r.id : Int) = id)) with
      | [] => .error (.text (notFound id))
      | r :: _ => .ok (contactOfRow r) := by
  unfold GetContact Stmt.QueryRow Stmt.Query
  simp only [Env.healthy, Stmt.select]
  cases db.rows.filter (fun r => decide ((r.id : Int) = id)) with
  | nil => rfl
  | cons r rest => rfl

/-- The not-found message is not the message of any other failure of GetContact. -/
theorem notFound_ne_getFailed (id : Int) (m : String) :
    notFound id ≠ "mysql: could not get contact: " ++ m := by
  intro h
  have h2 := congrArg (fun s => s.data.get? 18) h
  simp [notFound] at h2

/-- Under a primary key the rows with the identifier of a stored row are that row alone. -/
theorem filter_id_of_mem (rows : List Row) (hkey : (rows.map Row.id).Nodup) (r : Row)
    (hr : r ∈ rows) :
    rows.filter (fun x => decide ((x.id : Int) = (r.id : Int))) = [r] := by
  induction rows with
  | nil => cases hr
  | cons a rest ih =>
    rw [List.map_cons, List.nodup_cons] at hkey
    rcases List.mem_cons.1 hr with h | h
    · subst h
      have hrest : rest.filter (fun x => decide ((x.id : Int) = (r.id : Int))) = [] := by
        rw [List.filter_eq_nil_iff]
        intro x hx
        have : x.id ≠ r.id := fun e => hkey.1 (e ▸ List.mem_map_of_mem Row.id hx)
        simpa using this
      rw [List.filter_cons_of_pos (by simp), hrest]
    · have hne : a.id ≠ r.id := fun e => hkey.1 (e ▸ List.mem_map_of_mem Row.id h)
      rw [List.filter_cons_of_neg (by simpa using hne)]
      exact ih hkey.2 h

/-- C7: when the driver reports no failure GetContact returns, for an id no
stored row has, no contact and the error "mysql: could not find contact with
id ..."; every error of GetContact is either that one or a "mysql: could not
get contact: ..." error, whose message is never that of a not-found error;
and for the id of a stored row (ids being a primary key) it returns the
contact of that row with a nil error. -/
theorem C7_get_found_or_not_found (db : mysqlDB) (now : DateTime) :
    (∀ id : Int, (∀ r ∈ db.rows, (r.id : Int) ≠ id) →
      GetContact db (Env.healthy now) id = .error (.text (notFound id))) ∧
    (∀ (env : Env) (id : Int) (err : Error), GetContact db env id = .error err →
      err = .text (notFound id) ∨
        ∃ cause : Error, cause ≠ .ErrNoRows ∧
          err = .text ("mysql: could not get contact: " ++ cause.message) ∧
          ∀ j : Int, err ≠ .text (notFound j)) ∧
    ((db.rows.map Row.id).Nodup → ∀ r ∈ db.rows,
      GetContact db (Env.healthy now) (r.id : Int) = .ok (contactOfRow r)) := by
  refine ⟨?_, ?_, ?_⟩
  · intro id hno
    rw [GetContact_healthy, filter_id_eq_nil db.rows id hno]
  · intro env id err h
    unfold GetContact at h
    cases hs : scanContact (Stmt.get.QueryRow env [.int id] db) with
    | ok c => rw [hs] at h; cases h
    | error cause =>
      rw [hs] at h
      cases cause with
      | ErrNoRows =>
        left
        simp only [Except.error.injEq] at h
        exact h.symm
      | text m =>
        right
        simp only [Except.error.injEq] at h
        refine ⟨.text m, by simp, h.symm, ?_⟩
        intro j hj
        rw [← h] at hj
        simp only [Error.text.injEq] at hj
        exact notFound_ne_getFailed j _ hj.symm
  · intro hkey r hr
    rw [GetContact_healthy, filter_id_of_mem db.rows hkey r hr]

/-! ### AddContact -/

/-- AddContact, case by case: what it leaves and what it returns. -/
theorem AddContact_cases (db : mysqlDB) (env : Env) (b : Contact) :
    (∃ e, (AddContact db env b).2 = (0, some e) ∧
      (AddContact db env b).1.executed = db.executed ++ [(Stmt.insert, insertArgs b)]) ∨
    (env.exec = none ∧ env.rowsAffected = none ∧ env.lastInsertId = none ∧ canInsert db ∧
      AddContact db env b =
        ({ db with
            rows := db.rows ++ [insertedRow db env.now b]
            autoIncrement := db.autoIncrement + 1
            executed := db.executed ++ [(Stmt.insert, insertArgs b)] },
          ((db.autoIncrement : Int), none))) := by
  unfold AddContact execAffectingOneRow Stmt.Exec
  cases hexec : env.exec with
  | some e => left; exact ⟨_, rfl, rfl⟩
  | none =>
    by_cases hcan : canInsert db
    · have hcan2 := hcan
      unfold canInsert at hcan2
      simp only [Stmt.apply, if_pos hcan2]
      cases hra : env.rowsAffected with
      | some e => left; exact ⟨_, rfl, rfl⟩
      | none =>
        cases hli : env.lastInsertId with
        | some e => left; exact ⟨_, rfl, rfl⟩
        | none => right; exact ⟨by trivial, by trivial, by trivial, hcan, rfl⟩
    · have hcan2 := hcan
      unfold canInsert at hcan2
      simp only [Stmt.apply, if_neg hcan2]
      left; exact ⟨_, rfl, rfl⟩

/-- The text of a `datetime` is never empty. -/
theorem DateTime.text_ne_empty (d : DateTime) : d.text ≠ "" := by
  intro h
  have h2 := congrArg String.length h
  simp only [DateTime.text, String.length_append] at h2
  have h3 : "-".length = 1 := rfl
  have h4 : "".length = 0 := rfl
  omega

/-- The row stored by a successful AddContact is the only one with its identifier. -/
theorem filter_id_inserted (db : mysqlDB) (now : DateTime) (b : Contact) (hcan : canInsert db) :
    (db.rows ++ [insertedRow db now b]).filter
        (fun r => decide ((r.id : Int) = (db.autoIncrement : Int))) =
      [insertedRow db now b] := by
  have hold : db.rows.filter (fun r => decide ((r.id : Int) = (db.autoIncrement : Int))) = [] := by
    apply filter_id_eq_nil
    intro r hr
    exact_mod_cast hcan.2.2 r hr
  rw [List.filter_append, hold, List.nil_append, List.filter_cons_of_pos (by simp [insertedRow])]
  rfl

/-- C4 (as the code has it): when AddContact succeeds and returns id, GetContact of
id on the resulting state succeeds (the driver reporting no failure) and
returns the contact given to AddContact with ID set to id, CreatedDate
set to the text of the server time of the insert, and LastEdited empty: every
descriptive and creator field is as given, the identifier is id and is not 0,
CreatedDate is populated, LastEdited is not. -/
theorem C4_add_then_get (db : mysqlDB) (env : Env) (b : Contact) (id : Int)
    (h : (AddContact db env b).2 = (id, none)) (now : DateTime) :
    GetContact (AddContact db env b).1 (Env.healthy now) id =
        .ok { b with ID := id, CreatedDate := env.now.text, LastEdited := "" } ∧
      id ≠ 0 ∧ env.now.text ≠ "" := by
  rcases AddContact_cases db env b with ⟨e, he, _⟩ | ⟨_, _, _, hcan, hadd⟩
  · rw [he] at h
    cases h
  · rw [hadd] at h ⊢
    cases h
    refine ⟨?_, ?_, DateTime.text_ne_empty _⟩
    · rw [GetContact_healthy]
      simp only [filter_id_inserted db env.now b hcan]
      rfl
    · have := hcan.1
      omega

/-- C4, the counterexample: a contact added to an empty table is fetched back with
an empty LastEdited. -/
theorem C4_lastEdited_not_populated :
    (AddContact emptyDB (Env.healthy noon) homer).2 = (1, none) ∧
      GetContact (AddContact emptyDB (Env.healthy noon) homer).1 (Env.healthy noon) 1 =
        .ok ⟨1, "Homer", "Simpson", "742 Evergreen Terrace", "homer@example.com", "555-1234",
          "Bob", "bob", "2017-08-21 12:00:00", ""⟩ ∧
      (GetContact (AddContact emptyDB (Env.healthy noon) homer).1 (Env.healthy noon) 1).toOption.map
        Contact.LastEdited = some "" := by
  refine ⟨by decide, by rfl, by rfl⟩

/-- C4, an instance: adding the sample contact to the two-row table. -/
theorem C4_add_then_get_witness :
    (AddContact twoDB (Env.healthy noon) homer).2 = (3, none) ∧
      GetContact (AddContact twoDB (Env.healthy noon) homer).1 (Env.healthy noon) 3 =
        .ok { homer with ID := 3, CreatedDate := (Env.healthy noon).now.text, LastEdited := "" } :=
  ⟨by decide, (C4_add_then_get twoDB (Env.healthy noon) homer 3 (by decide) noon).1⟩

/-- C8: AddContact ignores the ID of its input: with any other ID the contact
leads to the same state and the same result, the call recorded being the
insert with the same seven arguments; on success the returned identifier is
the last insert id of that insert, the AUTO_INCREMENT value the server
assigned, which no stored row carries; on failure the returned identifier is 0. -/
theorem C8_add_ignores_input_id (db : mysqlDB) (env : Env) (b : Contact) :
    (∀ i : Int, AddContact db env { b with ID := i } = AddContact db env b ∧
      insertArgs { b with ID := i } = insertArgs b) ∧
    (AddContact db env b).1.executed = db.executed ++ [(Stmt.insert, insertArgs b)] ∧
    (∀ id : Int, (AddContact db env b).2 = (id, none) →
      (∃ r, (Stmt.insert.Exec env (insertArgs b) db).2 = .ok r ∧ r.LastInsertId = .ok id) ∧
      id = (db.autoIncrement : Int) ∧ ∀ r ∈ db.rows, (r.id : Int) ≠ id) ∧
    ((AddContact db env b).2.2 ≠ none → (AddContact db env b).2.1 = 0) := by
  refine ⟨fun i => ⟨rfl, rfl⟩, ?_, ?_, ?_⟩
  · rcases AddContact_cases db env b with ⟨e, _, hex⟩ | ⟨_, _, _, _, hadd⟩
    · exact hex
    · rw [hadd]
  · intro id h
    rcases AddContact_cases db env b with ⟨e, he, _⟩ | ⟨hexec, hra, hli, hcan, hadd⟩
    · rw [he] at h
      cases h
    · rw [hadd] at h
      cases h
      have hcan2 := hcan
      unfold canInsert at hcan2
      refine ⟨?_, rfl, ?_⟩
      · unfold Stmt.Exec insertArgs
        simp only [hexec, Stmt.apply, if_pos hcan2, hli]
        exact ⟨_, rfl, rfl⟩
      · intro r hr
        exact_mod_cast hcan.2.2 r hr
  · intro hne
    rcases AddContact_cases db env b with ⟨e, he, _⟩ | ⟨_, _, _, _, hadd⟩
    · rw [he]
    · rw [hadd] at hne
      exact absurd rfl hne

/-- C8, an instance: the sample contact under ID 0 and under ID 42. -/
theorem C8_add_ignores_input_id_witness :
    (AddContact twoDB (Env.healthy noon) homer).2 = (3, none) ∧
      AddContact twoDB (Env.healthy noon) { homer with ID := 42 } =
        AddContact twoDB (Env.healthy noon) homer ∧
      ∀ r ∈ twoDB.rows, (r.id : Int) ≠ 3 :=
  ⟨by decide, ((C8_add_ignores_input_id twoDB (Env.healthy noon) homer).1 42).1,
    ((C8_add_ignores_input_id twoDB (Env.healthy noon) homer).2.2.1 3 (by decide)).2.2⟩

/-! ### UpdateContact -/

/-- The state `Exec` of `updateStatement` leaves when the driver does not fail it. -/
theorem update_Exec_state (db : mysqlDB) (env : Env) (b : Contact) (hexec : env.exec = none) :
    (Stmt.update.Exec env (updateArgs b) db).1 =
      { db with
        rows := db.rows.map fun r =>
          if (r.id : Int) = b.ID then
            r.set b.FirstName b.LastName b.Address b.Email b.Phone b.CreatedBy b.CreatedByID
          else r
        executed := db.executed ++ [(Stmt.update, updateArgs b)] } := by
  unfold Stmt.Exec updateArgs
  simp only [hexec, Stmt.apply]

/-- The rows with a given id after `updateStatement`: the rows that had it, overwritten. -/
theorem filter_id_update (rows : List Row) (b : Contact) :
    (rows.map fun r =>
        if (r.id : Int) = b.ID then
          r.set b.FirstName b.LastName b.Address b.Email b.Phone b.CreatedBy b.CreatedByID
        else r).filter (fun r => decide ((r.id : Int) = b.ID)) =
      (rows.filter (fun r => decide ((r.id : Int) = b.ID))).map fun r =>
        r.set b.FirstName b.LastName b.Address b.Email b.Phone b.CreatedBy b.CreatedByID := by
  induction rows with
  | nil => rfl
  | cons a rest ih =>
    by_cases ha : (a.id : Int) = b.ID
    · rw [List.map_cons, if_pos ha, List.filter_cons_of_pos (by simpa [Row.set] using ha),
        List.filter_cons_of_pos (by simpa using ha), List.map_cons, ih]
    · rw [List.map_cons, if_neg ha, List.filter_cons_of_neg (by simpa using ha),
        List.filter_cons_of_neg (by simpa using ha), ih]

/-- C5: when UpdateContact succeeds, the table held a row with the contact's ID,
and GetContact of that ID (the driver reporting no failure) returns afterwards
the contact it returned before with FirstName, LastName, Address, Email,
Phone, CreatedBy and CreatedByID replaced by those given: the identifier and
the creation timestamp are as before. -/
theorem C5_update_then_get (db : mysqlDB) (env : Env) (b : Contact)
    (h : (UpdateContact db env b).2 = none) (now : DateTime) :
    ∃ before : Contact,
      (∃ r ∈ db.rows, (r.id : Int) = b.ID) ∧
      GetContact db (Env.healthy now) b.ID = .ok before ∧
      before.ID = b.ID ∧
      GetContact (UpdateContact db env b).1 (Env.healthy now) b.ID =
        .ok { before with
              FirstName := b.FirstName, LastName := b.LastName, Address := b.Address,
              Email := b.Email, Phone := b.Phone, CreatedBy := b.CreatedBy,
              CreatedByID := b.CreatedByID } := by
  have hb : b.ID ≠ 0 := by
    intro h0
    simp [UpdateContact, h0] at h
  obtain ⟨hiff, hst⟩ := UpdateContact_assigned db env b hb
  obtain ⟨r, hr, h1⟩ := hiff.1 h
  obtain ⟨hexec, h2⟩ := update_Exec_ok db env b r hr
  have hch : changedBy db b = 1 := by
    rw [h1] at h2
    cases hra : env.rowsAffected with
    | some e => simp [hra] at h2
    | none =>
      simp only [hra, Except.ok.injEq] at h2
      exact_mod_cast h2.symm
  rw [hst, update_Exec_state db env b hexec, GetContact_healthy, GetContact_healthy]
  simp only [filter_id_update]
  cases hf : db.rows.filter (fun r => decide ((r.id : Int) = b.ID)) with
  | nil =>
    exfalso
    have : changedBy db b = 0 := by
      unfold changedBy
      rw [List.length_eq_zero, List.filter_eq_nil_iff]
      intro x hx
      have hx2 := (List.filter_eq_nil_iff.1 hf) x hx
      simp only [decide_eq_true_eq] at hx2
      simp [hx2]
    omega
  | cons r0 rest =>
    have hmem : r0 ∈ db.rows.filter (fun r => decide ((r.id : Int) = b.ID)) := by
      rw [hf]
      exact List.mem_cons_self _ _
    rw [List.mem_filter] at hmem
    have hid : (r0.id : Int) = b.ID := by simpa using hmem.2
    exact ⟨contactOfRow r0, ⟨r0, hmem.1, hid⟩, rfl, hid, rfl⟩

/-- C5, an instance: Homer's phone number is changed in the two-row table. -/
theorem C5_update_then_get_witness :
    (UpdateContact twoDB (Env.healthy noon) { homer with ID := 1, Phone := "555-0000" }).2 = none ∧
      ∃ before : Contact,
        GetContact twoDB (Env.healthy noon) 1 = .ok before ∧
        GetContact
            (UpdateContact twoDB (Env.healthy noon) { homer with ID := 1, Phone := "555-0000" }).1
            (Env.healthy noon) 1 =
          .ok { before with
                FirstName := "Homer", LastName := "Simpson", Address := "742 Evergreen Terrace",
                Email := "homer@example.com", Phone := "555-0000", CreatedBy := "Bob",
                CreatedByID := "bob" } :=
  ⟨by decide,
    (C5_update_then_get twoDB (Env.healthy noon) { homer with ID := 1, Phone := "555-0000" }
      (by decide) noon).imp fun _ hx => ⟨hx.2.1, hx.2.2.2⟩⟩

/-! ### DeleteContact -/

/-- The state `Exec` of `deleteStatement` leaves when the driver does not fail it. -/
theorem delete_Exec_state (db : mysqlDB) (env : Env) (id : Int) (hexec : env.exec = none) :
    (Stmt.delete.Exec env [.int id] db).1 =
      { db with
        rows := db.rows.filter fun r => decide ((r.id : Int) ≠ id)
        executed := db.executed ++ [(Stmt.delete, [.int id])] } := by
  unfold Stmt.Exec
  simp only [hexec, Stmt.apply]

/-- GetContact reads the table only through the rows with the identifier asked for. -/
theorem GetContact_congr (db1 db2 : mysqlDB) (env : Env) (id : Int)
    (h : db1.rows.filter (fun r => decide ((r.id : Int) = id)) =
      db2.rows.filter (fun r => decide ((r.id : Int) = id))) :
    GetContact db1 env id = GetContact db2 env id := by
  unfold GetContact Stmt.QueryRow Stmt.Query
  simp only [Stmt.select, h]

/-- GetContact fails, whatever the driver reports, when no row has the identifier. -/
theorem GetContact_error_of_absent (db : mysqlDB) (env : Env) (id : Int)
    (hno : ∀ r ∈ db.rows, (r.id : Int) ≠ id) : ∃ e, GetContact db env id = .error e := by
  unfold GetContact Stmt.QueryRow Stmt.Query
  simp only [Stmt.select, filter_id_eq_nil db.rows id hno]
  cases env.exec with
  | some e => cases e <;> exact ⟨_, rfl⟩
  | none =>
    cases env.next with
    | none => exact ⟨_, rfl⟩
    | some ke =>
      obtain ⟨k, e⟩ := ke
      simp only [List.length_nil, Nat.not_lt_zero, if_false]
      exact ⟨_, rfl⟩

/-- Whatever the driver reports, each contact ListContacts returns is the contact of a
stored row. -/
theorem ListContacts_ok_mem (db : mysqlDB) (env : Env) (cs : List Contact)
    (h : ListContacts db env = .ok cs) : ∀ c ∈ cs, ∃ r ∈ db.rows, c = contactOfRow r := by
  unfold ListContacts Stmt.Query at h
  simp only [Stmt.select] at h
  intro c hc
  cases hexec : env.exec with
  | some e => simp [hexec] at h
  | none =>
    simp only [hexec] at h
    cases hnext : env.next with
    | none =>
      simp only [hnext] at h
      have := scanRows_ok_eq _ _ _ _ _ h
      subst this
      simp only [List.nil_append, List.mem_map] at hc
      obtain ⟨r, hr, rfl⟩ := hc
      exact ⟨r, ((orderByName_spec db.weight db.rows).1.mem_iff).1 hr, rfl⟩
    | some ke =>
      obtain ⟨k, e⟩ := ke
      simp only [hnext] at h
      by_cases hk : k < (orderByName db.weight db.rows).length
      · simp only [if_pos hk] at h
        have := scanRows_ok_eq _ _ _ _ _ h
        subst this
        simp only [List.nil_append, List.mem_map] at hc
        obtain ⟨r, hr, rfl⟩ := hc
        exact ⟨r, ((orderByName_spec db.weight db.rows).1.mem_iff).1 (List.mem_of_mem_take hr),
          rfl⟩
      · simp only [if_neg hk] at h
        have := scanRows_ok_eq _ _ _ _ _ h
        subst this
        simp only [List.nil_append, List.mem_map] at hc
        obtain ⟨r, hr, rfl⟩ := hc
        exact ⟨r, ((orderByName_spec db.weight db.rows).1.mem_iff).1 hr, rfl⟩

/-- C6: when DeleteContact of id succeeds, then on the resulting state
GetContact of id returns an error whatever the driver reports (the not-found
error when it reports no failure), no contact returned by ListContacts has
that identifier, and every other record is still returned unchanged:
ListContacts returns the contacts it returned before, in the same order,
except those with that identifier, and GetContact of any other identifier
answers as before. -/
theorem C6_delete_then_absent (db : mysqlDB) (env : Env) (id : Int)
    (h : (DeleteContact db env id).2 = none) :
    id ≠ 0 ∧
    (∀ env1 : Env, ∃ e, GetContact (DeleteContact db env id).1 env1 id = .error e) ∧
    (∀ now : DateTime,
      GetContact (DeleteContact db env id).1 (Env.healthy now) id = .error (.text (notFound id))) ∧
    (∀ (env1 : Env) (cs : List Contact),
      ListContacts (DeleteContact db env id).1 env1 = .ok cs → ∀ c ∈ cs, c.ID ≠ id) ∧
    (∀ now : DateTime, ∃ before after : List Contact,
      ListContacts db (Env.healthy now) = .ok before ∧
      ListContacts (DeleteContact db env id).1 (Env.healthy now) = .ok after ∧
      after = before.filter fun c => decide (c.ID ≠ id)) ∧
    (∀ (env1 : Env) (j : Int), j ≠ id →
      GetContact (DeleteContact db env id).1 env1 j = GetContact db env1 j) := by
  have hid : id ≠ 0 := by
    intro h0
    simp [DeleteContact, h0] at h
  obtain ⟨hiff, hst⟩ := DeleteContact_assigned db env id hid
  obtain ⟨r, hr, _⟩ := hiff.1 h
  obtain ⟨hexec, _⟩ := delete_Exec_ok db env id r hr
  rw [hst, delete_Exec_state db env id hexec]
  have hgone : ∀ r ∈ db.rows.filter (fun r => decide ((r.id : Int) ≠ id)), (r.id : Int) ≠ id := by
    intro r hr
    simpa using (List.mem_filter.1 hr).2
  refine ⟨hid, ?_, ?_, ?_, ?_, ?_⟩
  · intro env1
    exact GetContact_error_of_absent _ env1 id hgone
  · intro now
    rw [GetContact_healthy]
    simp only [filter_id_eq_nil _ id hgone]
  · intro env1 cs hcs c hc
    obtain ⟨r, hr, rfl⟩ := ListContacts_ok_mem _ env1 cs hcs c hc
    exact hgone r hr
  · intro now
    refine ⟨_, _, ListContacts_healthy db now, ListContacts_healthy _ now, ?_⟩
    have hfun : ((fun c : Contact => decide (c.ID ≠ id)) ∘ contactOfRow) =
        (fun r : Row => decide ((r.id : Int) ≠ id)) := by
      funext r
      rfl
    rw [List.filter_map, hfun, filter_orderByName]
  · intro env1 j hj
    apply GetContact_congr
    simp only [List.filter_filter]
    apply List.filter_congr
    intro x _
    by_cases hx : (x.id : Int) = j
    · simp [hx, hj]
    · simp [hx]

/-- C6, an instance: Homer is deleted from the two-row table. -/
theorem C6_delete_then_absent_witness :
    (DeleteContact twoDB (Env.healthy noon) 1).2 = none ∧
      GetContact (DeleteContact twoDB (Env.healthy noon) 1).1 (Env.healthy noon) 1 =
        .error (.text (notFound 1)) ∧
      GetContact (DeleteContact twoDB (Env.healthy noon) 1).1 (Env.healthy noon) 2 =
        GetContact twoDB (Env.healthy noon) 2 :=
  ⟨by decide, (C6_delete_then_absent twoDB (Env.healthy noon) 1 (by decide)).2.2.1 noon,
    (C6_delete_then_absent twoDB (Env.healthy noon) 1 (by decide)).2.2.2.2.2 (Env.healthy noon) 2
      (by decide)⟩

/-! ### ListContactsCreatedBy -/

/-- What ListContactsCreatedBy returns for a non-empty owner when the driver reports no
failure. -/
theorem ListContactsCreatedBy_healthy (db : mysqlDB) (now : DateTime) (x : String)
    (hx : x ≠ "") :
    ListContactsCreatedBy db (Env.healthy now) x =
      .ok ((orderByName db.weight
        (db.rows.filter fun r => colEq db.weight r.createdById x)).map contactOfRow) := by
  simp [ListContactsCreatedBy, hx, Stmt.Query, Stmt.select, Env.healthy, scanRows_of_scan_ok]

/-- C10 (as the code has it): for a non-empty owner identifier x, when the driver
reports no failure, ListContactsCreatedBy returns the contacts of the stored
rows whose createdById is not `NULL` and equals x under the collation of the
table, each such row once, in the order in which ListContacts returns them
(the order of `ORDER BY lastName, firstName`); every returned contact has a
CreatedByID with the weight of x, and where the collation tells all strings
apart the returned contacts are those of the stored rows whose CreatedByID
is x. -/
theorem C10_list_created_by (db : mysqlDB) (now : DateTime) (x : String) (hx : x ≠ "") :
    ∃ all rows : List Row,
      ListContacts db (Env.healthy now) = .ok (all.map contactOfRow) ∧
      ListContactsCreatedBy db (Env.healthy now) x = .ok (rows.map contactOfRow) ∧
      rows = all.filter (fun r => colEq db.weight r.createdById x) ∧
      rows.Perm (db.rows.filter fun r => colEq db.weight r.createdById x) ∧
      rows.Sorted (fun a b => nameLe db.weight a b = true) ∧
      (∀ c ∈ rows.map contactOfRow, db.weight c.CreatedByID = db.weight x) ∧
      (Function.Injective db.weight →
        (∀ r ∈ db.rows, r ∈ rows ↔ (contactOfRow r).CreatedByID = x) ∧
        ∀ c ∈ rows.map contactOfRow, c.CreatedByID = x) := by
  obtain ⟨hperm, hsorted⟩ :=
    orderByName_spec db.weight (db.rows.filter fun r => colEq db.weight r.createdById x)
  have hmem : ∀ r, r ∈ orderByName db.weight
      (db.rows.filter fun r => colEq db.weight r.createdById x) ↔
      r ∈ db.rows ∧ colEq db.weight r.createdById x = true := by
    intro r
    rw [hperm.mem_iff, List.mem_filter]
  have hweight : ∀ r : Row, colEq db.weight r.createdById x = true →
      db.weight (contactOfRow r).CreatedByID = db.weight x := by
    intro r hr
    cases hc : r.createdById with
    | none => simp [colEq, hc] at hr
    | some s =>
      simp only [colEq, hc, decide_eq_true_eq] at hr
      simpa [contactOfRow, NullString, hc] using hr
  refine ⟨_, _, ListContacts_healthy db now, ListContactsCreatedBy_healthy db now x hx,
    (filter_orderByName db.weight _ db.rows).symm, hperm, hsorted, ?_, ?_⟩
  · intro c hc
    obtain ⟨r, hr, rfl⟩ := List.mem_map.1 hc
    exact hweight r ((hmem r).1 hr).2
  · intro hinj
    constructor
    · intro r hr
      rw [hmem]
      constructor
      · intro h
        exact hinj (hweight r h.2)
      · intro h
        refine ⟨hr, ?_⟩
        cases hc : r.createdById with
        | none =>
          simp only [contactOfRow, NullString, hc, Option.getD_none] at h
          exact absurd h.symm hx
        | some s =>
          simp only [contactOfRow, NullString, hc, Option.getD_some] at h
          simp [colEq, h]
    · intro c hc
      obtain ⟨r, hr, rfl⟩ := List.mem_map.1 hc
      exact hinj (hweight r ((hmem r).1 hr).2)

/-- C10, the counterexample: under the collation of `createTableStatements` the
owner identifier "bob" lists the contact stored with creator identifier "Bob". -/
theorem C10_other_case_listed :
    ListContactsCreatedBy twoDB (Env.healthy noon) "bob" =
        .ok [⟨1, "Homer", "Simpson", "742 Evergreen Terrace", "homer@example.com", "555-1234",
          "Bob", "Bob", "2017-08-21 12:00:00", ""⟩] ∧
      "Bob" ≠ "bob" :=
  ⟨by rfl, by decide⟩

/-- C10, an instance: the contacts created by "alice" in the two-row table. -/
theorem C10_list_created_by_witness :
    "alice" ≠ "" ∧
      ∃ all rows : List Row,
        ListContacts twoDB (Env.healthy noon) = .ok (all.map contactOfRow) ∧
        ListContactsCreatedBy twoDB (Env.healthy noon) "alice" = .ok (rows.map contactOfRow) ∧
        rows = all.filter (fun r => colEq twoDB.weight r.createdById "alice") :=
  ⟨by decide, (C10_list_created_by twoDB noon "alice" (by decide)).imp fun _ h =>
    h.imp fun _ h2 => ⟨h2.1, h2.2.1, h2.2.2.1⟩⟩

/-- C1, an instance: the sample contact, whose ID is 0, on the two-row table. -/
theorem C1_unassigned_id_rejected_witness :
    homer.ID = 0 ∧ (UpdateContact twoDB (Env.healthy noon) homer).2 ≠ none ∧
      (DeleteContact twoDB (Env.healthy noon) 0).1.rows = twoDB.rows :=
  ⟨by decide, (C1_unassigned_id_rejected twoDB (Env.healthy noon) homer (by decide)).1.1,
    (C1_unassigned_id_rejected twoDB (Env.healthy noon) homer (by decide)).2.2.2.2⟩

/-- C2, an instance: identifier 7 is not in the two-row table. -/
theorem C2_exactly_one_row_affected_witness :
    (UpdateContact twoDB (Env.healthy noon) { homer with ID := 7 }).2 =
        some (.text "mysql: expected 1 row affected, got 0") ∧
      (DeleteContact twoDB (Env.healthy noon) 7).2 ≠ none :=
  ⟨(C2_exactly_one_row_affected.2.1 twoDB (Env.healthy noon) { homer with ID := 7 }
      (by decide) (by decide)).2 noon,
    (C2_exactly_one_row_affected.2.2 twoDB (Env.healthy noon) 7 (by decide) (by decide)).1⟩

/-- C7, an instance: identifier 7 is absent from the two-row table, identifier 2 is Ned. -/
theorem C7_get_found_or_not_found_witness :
    GetContact twoDB (Env.healthy noon) 7 =
        .error (.text "mysql: could not find contact with id 7") ∧
      GetContact twoDB (Env.healthy noon) 2 =
        .ok ⟨2, "Ned", "Flanders", "744 Evergreen Terrace", "ned@example.com", "555-8904",
          "alice", "alice", "2017-08-21 12:00:00", ""⟩ :=
  ⟨(C7_get_found_or_not_found twoDB noon).1 7 (by decide),
    (C7_get_found_or_not_found twoDB noon).2.2 (by decide)
      ⟨2, some "Ned", some "Flanders", some "744 Evergreen Terrace", some "ned@example.com",
        some "555-8904", some "alice", some "alice", some noon⟩ (by decide)⟩

/-- C9, an instance: the two-row table is listed Flanders first, then Simpson. -/
theorem C9_list_sorted_by_name_witness :
    ∃ rows : List Row,
      ListContacts twoDB (Env.healthy noon) = .ok (rows.map contactOfRow) ∧
      (rows.map contactOfRow).Sorted (fun a b => contactLe twoDB.weight a b = true) :=
  (C9_list_sorted_by_name twoDB noon).1.imp fun _ h => ⟨h.1, h.2.2.2 (by decide)⟩

/-! ### FindContactByName, scanContact, TallyContacts -/

/-- A text column that passes `col = ?` scans to a text with the weight of the argument. -/
theorem colEq_weight (w : String → List Nat) (col : Option String) (x : String)
    (h : colEq w col x = true) : w (NullString col) = w x := by
  cases col with
  | none => simp [colEq] at h
  | some s => simpa [colEq, NullString] using h

/-- Whatever the driver reports, the contacts FindContactByName returns are those of at
most one stored row, which passes both tests of `findByNameStatement`. -/
theorem FindContactByName_ok (db : mysqlDB) (env : Env) (fn ln : String) (cs : List Contact)
    (h : FindContactByName db env fn ln = .ok cs) :
    ∃ rows : List Row, cs = rows.map contactOfRow ∧ rows.length ≤ 1 ∧
      ∀ r ∈ rows, r ∈ db.rows ∧ colEq db.weight r.firstName fn = true ∧
        colEq db.weight r.lastName ln = true := by
  unfold FindContactByName Stmt.Query at h
  simp only [Stmt.select] at h
  have hsel : ∀ r ∈ (db.rows.filter fun r =>
      colEq db.weight r.firstName fn && colEq db.weight r.lastName ln).take 1,
      r ∈ db.rows ∧ colEq db.weight r.firstName fn = true ∧
        colEq db.weight r.lastName ln = true := by
    intro r hr
    have hm := List.mem_filter.1 (List.mem_of_mem_take hr)
    simp only [Bool.and_eq_true] at hm
    exact ⟨hm.1, hm.2.1, hm.2.2⟩
  have hlen : ((db.rows.filter fun r =>
      colEq db.weight r.firstName fn && colEq db.weight r.lastName ln).take 1).length ≤ 1 := by
    rw [List.length_take]
    exact Nat.min_le_left _ _
  cases hexec : env.exec with
  | some e => simp [hexec] at h
  | none =>
    simp only [hexec] at h
    cases hnext : env.next with
    | none =>
      simp only [hnext] at h
      have := scanRows_ok_eq _ _ _ _ _ h
      exact ⟨_, this.trans (List.nil_append _), hlen, hsel⟩
    | some ke =>
      obtain ⟨k, e⟩ := ke
      simp only [hnext] at h
      by_cases hk : k < ((db.rows.filter fun r =>
          colEq db.weight r.firstName fn && colEq db.weight r.lastName ln).take 1).length
      · simp only [if_pos hk] at h
        have := scanRows_ok_eq _ _ _ _ _ h
        refine ⟨_, this.trans (List.nil_append _), ?_, ?_⟩
        · rw [List.length_take]
          exact le_trans (Nat.min_le_right _ _) hlen
        · intro r hr
          exact hsel r (List.mem_of_mem_take hr)
      · simp only [if_neg hk] at h
        have := scanRows_ok_eq _ _ _ _ _ h
        exact ⟨_, this.trans (List.nil_append _), hlen, hsel⟩

/-- What FindContactByName returns when the driver reports no failure. -/
theorem FindContactByName_healthy (db : mysqlDB) (now : DateTime) (fn ln : String) :
    FindContactByName db (Env.healthy now) fn ln =
      .ok (((db.rows.filter fun r =>
        colEq db.weight r.firstName fn && colEq db.weight r.lastName ln).take 1).map
          contactOfRow) := by
  simp [FindContactByName, Stmt.Query, Stmt.select, Env.healthy, scanRows_of_scan_ok]

/-- C11 (as the code has it): whatever the driver reports, a successful
FindContactByName returns at most one contact, and any contact it returns has a
FirstName and a LastName equal to fn and ln under the collation of the table
(exactly equal where the collation tells all strings apart); when the driver
reports no failure it returns the empty result with a nil error if no stored
contact matches both under that collation, and one matching contact if some
stored row passes both tests. -/
theorem C11_find_by_name (db : mysqlDB) (fn ln : String) :
    (∀ (env : Env) (cs : List Contact), FindContactByName db env fn ln = .ok cs →
      cs.length ≤ 1 ∧
      ∀ c ∈ cs, (db.weight c.FirstName = db.weight fn ∧ db.weight c.LastName = db.weight ln) ∧
        (Function.Injective db.weight → c.FirstName = fn ∧ c.LastName = ln)) ∧
    (∀ now : DateTime,
      (∀ r ∈ db.rows, ¬ (db.weight (contactOfRow r).FirstName = db.weight fn ∧
        db.weight (contactOfRow r).LastName = db.weight ln)) →
      FindContactByName db (Env.healthy now) fn ln = .ok []) ∧
    (∀ now : DateTime,
      (∃ r ∈ db.rows, colEq db.weight r.firstName fn = true ∧
        colEq db.weight r.lastName ln = true) →
      ∃ r ∈ db.rows, FindContactByName db (Env.healthy now) fn ln = .ok [contactOfRow r]) := by
  refine ⟨?_, ?_, ?_⟩
  · intro env cs h
    obtain ⟨rows, rfl, hlen, hrows⟩ := FindContactByName_ok db env fn ln cs h
    refine ⟨by simpa using hlen, ?_⟩
    intro c hc
    obtain ⟨r, hr, rfl⟩ := List.mem_map.1 hc
    obtain ⟨_, hf, hl⟩ := hrows r hr
    have h1 : db.weight (contactOfRow r).FirstName = db.weight fn :=
      colEq_weight db.weight r.firstName fn hf
    have h2 : db.weight (contactOfRow r).LastName = db.weight ln :=
      colEq_weight db.weight r.lastName ln hl
    exact ⟨⟨h1, h2⟩, fun hinj => ⟨hinj h1, hinj h2⟩⟩
  · intro now hno
    rw [FindContactByName_healthy]
    have hnil : (db.rows.filter fun r =>
        colEq db.weight r.firstName fn && colEq db.weight r.lastName ln) = [] := by
      rw [List.filter_eq_nil_iff]
      intro r hr hboth
      simp only [Bool.and_eq_true] at hboth
      exact hno r hr ⟨colEq_weight db.weight r.firstName fn hboth.1,
        colEq_weight db.weight r.lastName ln hboth.2⟩
    rw [hnil]
    rfl
  · rintro now ⟨r0, hr0, hf0, hl0⟩
    rw [FindContactByName_healthy]
    cases hfil : (db.rows.filter fun r =>
        colEq db.weight r.firstName fn && colEq db.weight r.lastName ln) with
    | nil =>
      exfalso
      have := (List.filter_eq_nil_iff.1 hfil) r0 hr0
      simp [hf0, hl0] at this
    | cons r rest =>
      have hmem : r ∈ db.rows.filter fun r =>
          colEq db.weight r.firstName fn && colEq db.weight r.lastName ln := by
        rw [hfil]
        exact List.mem_cons_self _ _
      exact ⟨r, (List.mem_filter.1 hmem).1, rfl⟩

/-- C11, the counterexample: under the collation of `createTableStatements` the names
"homer" and "SIMPSON" find the contact stored as "Homer" "Simpson". -/
theorem C11_other_case_found :
    FindContactByName twoDB (Env.healthy noon) "homer" "SIMPSON" =
        .ok [⟨1, "Homer", "Simpson", "742 Evergreen Terrace", "homer@example.com", "555-1234",
          "Bob", "Bob", "2017-08-21 12:00:00", ""⟩] ∧
      "Homer" ≠ "homer" ∧ "Simpson" ≠ "SIMPSON" :=
  ⟨by rfl, by decide, by decide⟩

/-- C11, an instance: nobody is called "Marge" "Simpson" in the two-row table, and "Ned"
"Flanders" is found. -/
theorem C11_find_by_name_witness :
    FindContactByName twoDB (Env.healthy noon) "Marge" "Simpson" = .ok [] ∧
      ∃ r ∈ twoDB.rows,
        FindContactByName twoDB (Env.healthy noon) "Ned" "Flanders" = .ok [contactOfRow r] :=
  ⟨(C11_find_by_name twoDB "Marge" "Simpson").2.1 noon (by decide),
    (C11_find_by_name twoDB "Ned" "Flanders").2.2 noon (by decide)⟩

/-- C12: for a row that scans, scanContact returns a contact whose ID is the id of
the row and whose FirstName, LastName, Address, Email, Phone, CreatedBy,
CreatedByID and CreatedDate are the value of the column when it is not `NULL`
(for `createdDate` the text of the datetime) and the empty string when it is;
when the scan fails it returns no contact and the error of the scan. -/
theorem C12_scanContact_columns (r : Row) (err : Error) :
    (∃ c : Contact, scanContact (.ok r) = .ok c ∧
      c.ID = (r.id : Int) ∧
      c.FirstName = (match r.firstName with | some s => s | none => "") ∧
      c.LastName = (match r.lastName with | some s => s | none => "") ∧
      c.Address = (match r.address with | some s => s | none => "") ∧
      c.Email = (match r.email with | some s => s | none => "") ∧
      c.Phone = (match r.phone with | some s => s | none => "") ∧
      c.CreatedBy = (match r.createdBy with | some s => s | none => "") ∧
      c.CreatedByID = (match r.createdById with | some s => s | none => "") ∧
      c.CreatedDate = (match r.createdDate with | some d => d.text | none => "")) ∧
    scanContact (.error err) = .error err := by
  refine ⟨⟨contactOfRow r, rfl, rfl, ?_, ?_, ?_, ?_, ?_, ?_, ?_, ?_⟩, rfl⟩
  · cases h : r.firstName <;> simp [contactOfRow, NullString, h]
  · cases h : r.lastName <;> simp [contactOfRow, NullString, h]
  · cases h : r.address <;> simp [contactOfRow, NullString, h]
  · cases h : r.email <;> simp [contactOfRow, NullString, h]
  · cases h : r.phone <;> simp [contactOfRow, NullString, h]
  · cases h : r.createdBy <;> simp [contactOfRow, NullString, h]
  · cases h : r.createdById <;> simp [contactOfRow, NullString, h]
  · cases h : r.createdDate <;> simp [contactOfRow, NullString, h]

/-- When `rows.Next()` does not stop early, TallyContacts keeps its word: a nil error
comes with the number of stored contacts, an error with -1. -/
theorem TallyContacts_of_next_ok (db : mysqlDB) (env : Env) (hnext : env.next = none) :
    ((TallyContacts db env).2 = none → (TallyContacts db env).1 = (db.rows.length : Int)) ∧
      ((TallyContacts db env).2 ≠ none → (TallyContacts db env).1 = -1) := by
  unfold TallyContacts Stmt.QueryCount
  cases hexec : env.exec with
  | some e => simp
  | none =>
    cases hscan : env.scan with
    | some e => simp [hnext]
    | none => simp [hnext]

/-- C13, the failing input: on a table of two contacts, when `rows.Next()` fails
before the first row, TallyContacts returns the tally 0 with a nil error,
neither -1 with an error nor the number of stored contacts. -/
theorem C13_tally_zero_when_next_fails :
    TallyContacts twoDB brokenNext = (0, none) ∧ twoDB.rows.length = 2 :=
  ⟨by rfl, by rfl⟩

/-! ### contact.go and dataStoreName -/

/-- C14: after SetCreatorAnonymous the contact has an empty CreatedBy, the
CreatedByID "anonymous", every other field as before, and the display name
"Anonymous"; a contact whose CreatedByID is not "anonymous" displays its
CreatedBy. -/
theorem C14_anonymous_creator (c : Contact) :
    c.SetCreatorAnonymous.CreatedBy = "" ∧
    c.SetCreatorAnonymous.CreatedByID = "anonymous" ∧
    (c.SetCreatorAnonymous.ID = c.ID ∧ c.SetCreatorAnonymous.FirstName = c.FirstName ∧
      c.SetCreatorAnonymous.LastName = c.LastName ∧ c.SetCreatorAnonymous.Address = c.Address ∧
      c.SetCreatorAnonymous.Email = c.Email ∧ c.SetCreatorAnonymous.Phone = c.Phone ∧
      c.SetCreatorAnonymous.CreatedDate = c.CreatedDate ∧
      c.SetCreatorAnonymous.LastEdited = c.LastEdited) ∧
    c.SetCreatorAnonymous.CreatedByDisplayName = "Anonymous" ∧
    (c.CreatedByID ≠ "anonymous" → c.CreatedByDisplayName = c.CreatedBy) := by
  refine ⟨rfl, rfl, ⟨rfl, rfl, rfl, rfl, rfl, rfl, rfl, rfl⟩, ?_, ?_⟩
  · simp [Contact.CreatedByDisplayName, Contact.SetCreatorAnonymous]
  · intro h
    simp [Contact.CreatedByDisplayName, h]

/-- C14, an instance: the sample contact was created by "bob". -/
theorem C14_anonymous_creator_witness :
    homer.CreatedByID ≠ "anonymous" ∧ homer.CreatedByDisplayName = "Bob" ∧
      homer.SetCreatorAnonymous.CreatedByDisplayName = "Anonymous" :=
  ⟨by decide, (C14_anonymous_creator homer).2.2.2.2 (by decide),
    (C14_anonymous_creator homer).2.2.2.1⟩

/-- C20: the connection string is the credentials followed by `unix(socket)/db`
when a socket is set, whatever the host and port, and by `tcp([host]:port)/db`
with the port in decimal otherwise; the credentials are empty without a
username (a password alone is dropped), `username@` without a password and
`username:password@` otherwise. -/
theorem C20_dataStoreName (c : MySQLConfig) (d : String) :
    (c.UnixSocket ≠ "" →
      c.dataStoreName d = credentials c ++ "unix(" ++ c.UnixSocket ++ ")/" ++ d) ∧
    (c.UnixSocket = "" →
      c.dataStoreName d =
        credentials c ++ "tcp([" ++ c.Host ++ "]:" ++ toString c.Port ++ ")/" ++ d) ∧
    (c.Username = "" → credentials c = "") ∧
    (c.Username ≠ "" → c.Password = "" → credentials c = c.Username ++ "@") ∧
    (c.Username ≠ "" → c.Password ≠ "" →
      credentials c = c.Username ++ ":" ++ c.Password ++ "@") := by
  have hcred : (if c.Username ≠ "" then
      (if c.Password ≠ "" then c.Username ++ ":" ++ c.Password else c.Username) ++ "@"
      else "") = credentials c := by
    unfold credentials
    by_cases hu : c.Username = "" <;> by_cases hp : c.Password = "" <;> simp [hu, hp]
  refine ⟨?_, ?_, ?_, ?_, ?_⟩
  · intro hs
    simp only [MySQLConfig.dataStoreName, hcred, if_pos hs]
  · intro hs
    simp only [MySQLConfig.dataStoreName, hcred, hs, ne_eq, not_true_eq_false, if_false]
  · intro hu
    simp [credentials, hu]
  · intro hu hp
    simp [credentials, hu, hp]
  · intro hu hp
    simp [credentials, hu, hp]

/-- C20, instances: the two settings of `configureCloudSQL`, a password without a
username, and a socket set together with a host and a port. -/
theorem C20_dataStoreName_witness :
    (configureCloudSQL true "root" "pw" "proj:region:inst" 13306).dataStoreName "yum_contacts" =
        "root:pw@unix(/cloudsql/proj:region:inst)/yum_contacts" ∧
      (configureCloudSQL false "root" "" "proj:region:inst" 13306).dataStoreName "" =
        "root@tcp([localhost]:13306)/" ∧
      credentials ⟨"", "pw", "db.example.com", 3306, ""⟩ = "" ∧
      (MySQLConfig.mk "" "pw" "db.example.com" 3306 "/tmp/mysql.sock").dataStoreName "d" =
        "unix(/tmp/mysql.sock)/d" :=
  ⟨(C20_dataStoreName (configureCloudSQL true "root" "pw" "proj:region:inst" 13306)
      "yum_contacts").1 (by decide),
    (C20_dataStoreName (configureCloudSQL false "root" "" "proj:region:inst" 13306) "").2.1
      (by decide),
    (C20_dataStoreName ⟨"", "pw", "db.example.com", 3306, ""⟩ "").2.2.1 (by decide),
    (C20_dataStoreName ⟨"", "pw", "db.example.com", 3306, "/tmp/mysql.sock"⟩ "d").1 (by decide)⟩

end Contacts

namespace Main

open Contacts

/-! ## Properties of the handlers -/

theorem Sprintf_could_not_find (err : Error) :
    fmt.Sprintf "could not find contact: %v" [.err (some err)] =
      "could not find contact: " ++ err.message := by
  apply String.ext
  simp [fmt.Sprintf, fmt.format, fmt.verb, Arg.text]

theorem Sprintf_v (err : Error) : fmt.Sprintf "%v" [.err (some err)] = err.message := by
  apply String.ext
  simp [fmt.Sprintf, fmt.format, fmt.verb, Arg.text]

theorem Sprintf_placeholder (cx : Ctx) :
    fmt.Sprintf "You have %d contacts as of %v" [.int 0, .str cx.clock] = placeholder cx := by
  apply String.ext
  simp [fmt.Sprintf, fmt.format, fmt.verb, Arg.text, placeholder]
  rfl

/-- A failing template gives an error of code 500. -/
theorem Execute_code (t : String) (cx : Ctx) (d : PageData) (st : State) (e : appError)
    (h : (appTemplate.Execute t cx d st).2 = some e) : e.Code = 500 := by
  unfold appTemplate.Execute at h
  cases hr : cx.render with
  | none => simp [hr] at h
  | some err =>
    simp only [hr, Option.some.injEq] at h
    rw [← h]
    rfl

/-- An error that is a value of `appErrorf` has code 500. -/
theorem appErrorf_code (x : Option appError) (err : Option Error) (f : String) (v : List Arg)
    (e : appError) (hx : x = some (appErrorf err f v)) (h : x = some e) : e.Code = 500 := by
  rw [hx] at h
  cases h
  rfl

theorem listHandler_code (cx : Ctx) (r : Request) (st : State) (e : appError)
    (h : (listHandler cx r st).2 = some e) : e.Code = 500 := by
  unfold listHandler at h
  simp only at h
  cases hl : Contacts.ListContacts (st.call StorageCall.ListContacts).db cx.env with
  | error err => exact appErrorf_code _ _ _ _ _ (by rw [hl]) h
  | ok cs =>
    rw [hl] at h
    exact Execute_code _ _ _ _ _ h

theorem detailHandler_code (cx : Ctx) (r : Request) (st : State) (e : appError)
    (h : (detailHandler cx r st).2 = some e) : e.Code = 500 := by
  unfold detailHandler at h
  rcases hc : contactFromRequest cx r st with ⟨st1, res⟩
  rw [hc] at h
  cases res with
  | error err => exact appErrorf_code _ _ _ _ _ rfl h
  | ok c => exact Execute_code _ _ _ _ _ h

theorem editFormHandler_code (cx : Ctx) (r : Request) (st : State) (e : appError)
    (h : (editFormHandler cx r st).2 = some e) : e.Code = 500 := by
  unfold editFormHandler at h
  rcases hc : contactFromRequest cx r st with ⟨st1, res⟩
  rw [hc] at h
  cases res with
  | error err => exact appErrorf_code _ _ _ _ _ rfl h
  | ok c => exact Execute_code _ _ _ _ _ h

theorem createHandler_code (cx : Ctx) (r : Request) (st : State) (e : appError)
    (h : (createHandler cx r st).2 = some e) : e.Code = 500 := by
  unfold createHandler at h
  rcases hf : contactFromForm cx r with ⟨c, ferr⟩
  rw [hf] at h
  cases ferr with
  | some err => exact appErrorf_code _ _ _ _ _ rfl h
  | none =>
    simp only at h
    rcases ha : Contacts.AddContact (st.call (StorageCall.AddContact c)).db cx.env c with
      ⟨db1, id, aerr⟩
    rw [ha] at h
    cases aerr with
    | some err => exact appErrorf_code _ _ _ _ _ rfl h
    | none => simp at h

theorem updateHandler_code (cx : Ctx) (r : Request) (st : State) (e : appError)
    (h : (updateHandler cx r st).2 = some e) : e.Code = 500 := by
  unfold updateHandler at h
  cases hp : strconv.ParseInt (r.Vars.get "id") with
  | error err => exact appErrorf_code _ _ _ _ _ (by rw [hp]) h
  | ok id =>
    rw [hp] at h
    simp only at h
    rcases hf : contactFromForm cx r with ⟨c, ferr⟩
    rw [hf] at h
    cases ferr with
    | some err => exact appErrorf_code _ _ _ _ _ rfl h
    | none =>
      simp only at h
      rcases hu : Contacts.UpdateContact
          (st.call (StorageCall.UpdateContact { c with ID := id })).db cx.env
          { c with ID := id } with ⟨db1, uerr⟩
      rw [hu] at h
      cases uerr with
      | some err => exact appErrorf_code _ _ _ _ _ rfl h
      | none => simp at h

theorem deleteHandler_code (cx : Ctx) (r : Request) (st : State) (e : appError)
    (h : (deleteHandler cx r st).2 = some e) : e.Code = 500 := by
  unfold deleteHandler at h
  cases hp : strconv.ParseInt (r.Vars.get "id") with
  | error err => exact appErrorf_code _ _ _ _ _ (by rw [hp]) h
  | ok id =>
    rw [hp] at h
    simp only at h
    rcases hu : Contacts.DeleteContact (st.call (StorageCall.DeleteContact id)).db cx.env id with
      ⟨db1, uerr⟩
    rw [hu] at h
    cases uerr with
    | some err => exact appErrorf_code _ _ _ _ _ rfl h
    | none => simp at h

/-- The handler of the webhook in terms of its `switch`, once the body decoded. -/
theorem webhookHandler_decoded (cx : Ctx) (r : Request) (st : State) (ar : APIAIRequest)
    (hbody : r.Body = .ok ar) :
    webhookHandler cx r st =
      match dispatch ar.IntentName cx ar unprocessed (afterMethodCheck r st) with
      | (st1, _, some err) =>
        (st1, some (appErrorf (some err) "Processing of INTENT: %s failed: %v"
          [.str ar.IntentName, .err (some err)]))
      | (st1, respJson, none) =>
        ({ st1 with
            w := (st1.w.SetHeader "Content-Type" "application/json").Write (.json respJson) },
          none) := by
  unfold webhookHandler
  simp only [hbody]
  rfl

theorem webhookHandler_code (cx : Ctx) (r : Request) (st : State) (e : appError)
    (h : (webhookHandler cx r st).2 = some e) : e.Code = 500 := by
  cases hb : r.Body with
  | error err =>
    unfold webhookHandler at h
    simp only [hb] at h
    exact appErrorf_code _ _ _ _ _ rfl h
  | ok ar =>
    rw [webhookHandler_decoded cx r st ar hb] at h
    rcases hd : dispatch ar.IntentName cx ar unprocessed (afterMethodCheck r st) with
      ⟨st1, rj, derr⟩
    rw [hd] at h
    cases derr with
    | some err => exact appErrorf_code _ _ _ _ _ rfl h
    | none => simp at h

/-- C15: appErrorf returns an appError with the given error, the formatted text
as Message and Code 500, for every error, format and operands; and every
appError returned by listHandler, detailHandler, editFormHandler,
createHandler, updateHandler, deleteHandler and webhookHandler has
Code 500. -/
theorem C15_handler_errors_carry_500 :
    (∀ (err : Option Error) (format : String) (v : List Arg),
      appErrorf err format v = ⟨err, fmt.Sprintf format v, 500⟩) ∧
    (∀ (cx : Ctx) (r : Request) (st : State) (e : appError),
      ((listHandler cx r st).2 = some e → e.Code = 500) ∧
      ((detailHandler cx r st).2 = some e → e.Code = 500) ∧
      ((editFormHandler cx r st).2 = some e → e.Code = 500) ∧
      ((createHandler cx r st).2 = some e → e.Code = 500) ∧
      ((updateHandler cx r st).2 = some e → e.Code = 500) ∧
      ((deleteHandler cx r st).2 = some e → e.Code = 500) ∧
      ((webhookHandler cx r st).2 = some e → e.Code = 500)) :=
  ⟨fun _ _ _ => rfl, fun cx r st e =>
    ⟨listHandler_code cx r st e, detailHandler_code cx r st e, editFormHandler_code cx r st e,
      createHandler_code cx r st e, updateHandler_code cx r st e, deleteHandler_code cx r st e,
      webhookHandler_code cx r st e⟩⟩

/-- C15, an instance: the error of detailHandler for `GET /contacts/7` on the two-row
table. -/
theorem C15_handler_errors_carry_500_witness :
    ∃ e : appError, (detailHandler calm getSeven twoState).2 = some e ∧
      e.Message = "could not find contact: mysql: could not find contact with id 7" ∧
      e.Code = 500 :=
  ⟨⟨some (.text "could not find contact: mysql: could not find contact with id 7"),
      "could not find contact: mysql: could not find contact with id 7", 500⟩,
    by rfl, rfl,
    (C15_handler_errors_carry_500.2 calm getSeven twoState _).2.1 (by rfl)⟩

/-- Answering an error on a writer nothing was written to sets its status. -/
theorem http_Error_status (w : ResponseWriter) (msg : String) (code : Int)
    (hw : w.status = none) : (http.Error w msg code).status = some code := by
  simp [http.Error, ResponseWriter.SetHeader, ResponseWriter.WriteHeader, ResponseWriter.Write, hw]

/-- C16 (as the code has it): for a request whose id parses and has no stored
contact, detailHandler asks `contacts.DB` for the contact and returns an
appError of Code 500, whatever the driver reports, and `ServeHTTP` answers a
writer nothing was written to with status 500, the generic server error,
which is not a 4xx status; when the driver reports no failure the message is
"could not find contact: mysql: could not find contact with id ...". -/
theorem C16_detail_of_absent_contact (cx : Ctx) (r : Request) (st : State) (id : Int)
    (hid : strconv.ParseInt (r.Vars.get "id") = .ok id)
    (hno : ∀ row ∈ st.db.rows, (row.id : Int) ≠ id) :
    (∃ e : appError, detailHandler cx r st = (st.call (.GetContact id), some e) ∧
      e.Code = 500 ∧
      (∀ now : DateTime, cx.env = Env.healthy now →
        e.Message = "could not find contact: " ++ notFound id)) ∧
    (st.w.status = none →
      (appHandler.ServeHTTP detailHandler cx r st).w.status = some 500 ∧
      ¬ (400 ≤ (500 : Int) ∧ (500 : Int) < 500)) := by
  obtain ⟨gerr, hget⟩ := GetContact_error_of_absent st.db cx.env id hno
  have hdet : detailHandler cx r st =
      (st.call (.GetContact id),
        some (appErrorf
          (some (.text (fmt.Sprintf "could not find contact: %v" [.err (some gerr)]))) "%v"
          [.err (some (.text (fmt.Sprintf "could not find contact: %v" [.err (some gerr)])))])) := by
    unfold detailHandler contactFromRequest
    simp only [hid]
    have hget2 : Contacts.GetContact (st.call (StorageCall.GetContact id)).db cx.env id =
        .error gerr := hget
    simp only [hget2]
  refine ⟨⟨_, hdet, rfl, ?_⟩, ?_⟩
  · intro now henv
    have hnf : gerr = .text (notFound id) := by
      have h2 := hget
      rw [henv, GetContact_healthy, filter_id_eq_nil st.db.rows id hno] at h2
      simp only [Except.error.injEq] at h2
      exact h2.symm
    subst hnf
    simp only [appErrorf, Sprintf_v, Sprintf_could_not_find]
    rfl
  · intro hw
    refine ⟨?_, by decide⟩
    unfold appHandler.ServeHTTP
    rw [hdet]
    exact http_Error_status _ _ _ hw

/-- C16, the counterexample: `GET /contacts/7` on the two-row table, which holds no
contact 7, is answered with status 500. -/
theorem C16_absent_contact_answered_500 :
    (appHandler.ServeHTTP detailHandler calm getSeven twoState).w =
        ⟨some 500,
          [("X-Content-Type-Options", "nosniff"), ("Content-Type", "text/plain; charset=utf-8")],
          [.text "could not find contact: mysql: could not find contact with id 7\n"]⟩ ∧
      ¬ (400 ≤ (500 : Int) ∧ (500 : Int) < 500) :=
  ⟨by rfl, by decide⟩

/-- C16, an instance: `GET /contacts/7` on the two-row table. -/
theorem C16_detail_of_absent_contact_witness :
    strconv.ParseInt (getSeven.Vars.get "id") = .ok 7 ∧
      (appHandler.ServeHTTP detailHandler calm getSeven twoState).w.status = some 500 :=
  ⟨by rfl,
    ((C16_detail_of_absent_contact calm getSeven twoState 7 (by rfl) (by decide)).2 (by rfl)).1⟩

/-- The method check of the webhook touches neither the database nor the record of calls. -/
theorem afterMethodCheck_frame (r : Request) (st : State) :
    (afterMethodCheck r st).db = st.db ∧ (afterMethodCheck r st).calls = st.calls := by
  unfold afterMethodCheck
  split <;> exact ⟨rfl, rfl⟩

/-- The `switch` on the counting intent: one call of TallyContacts. -/
theorem dispatch_tally (cx : Ctx) (ar : APIAIRequest) (rj : APIAIMessage) (st : State) :
    (dispatch "number_of_contacts" cx ar rj st).1 = st.call .TallyContacts := by
  simp only [dispatch, if_true, tallyContacts]
  rcases Contacts.TallyContacts (st.call StorageCall.TallyContacts).db cx.env with ⟨n, _ | e⟩ <;> rfl

/-- The `switch` on the finding intent: one call of FindContactByName on the given
name and the last name of the request. -/
theorem dispatch_find (cx : Ctx) (ar : APIAIRequest) (rj : APIAIMessage) (st : State) :
    (dispatch "find_contact" cx ar rj st).1 =
      st.call (.FindContactByName (ar.Parameters.get "given-name")
        (ar.Parameters.get "last-name")) := by
  have hne : ¬ ("find_contact" = "number_of_contacts") := by decide
  simp only [dispatch, hne, if_false, if_true, findContact, extractContactFromAPIAIRequest,
    APIAIContact.ofParameters]
  rcases Contacts.FindContactByName
      (st.call (StorageCall.FindContactByName (ar.Parameters.get "given-name")
        (ar.Parameters.get "last-name"))).db cx.env (ar.Parameters.get "given-name")
      (ar.Parameters.get "last-name") with e | cs
  · rfl
  · cases cs <;> rfl

/-- The `switch` on any other intent: no call, no error, the placeholder message. -/
theorem dispatch_stub (intent : String) (cx : Ctx) (ar : APIAIRequest) (rj : APIAIMessage)
    (st : State) (h1 : intent ≠ "number_of_contacts") (h2 : intent ≠ "find_contact") :
    dispatch intent cx ar rj st =
      (st, { rj with Speech := placeholder cx, DisplayText := placeholder cx }, none) := by
  simp only [dispatch, h1, h2, if_false, addContact, updateContact, deleteContact,
    unhandledIntent, Sprintf_placeholder]
  split_ifs <;> rfl

/-- The state a handler of the webhook leaves is, but for the response writer, the one
its `switch` leaves. -/
theorem webhookHandler_frame (cx : Ctx) (r : Request) (st : State) (ar : APIAIRequest)
    (hbody : r.Body = .ok ar) :
    (webhookHandler cx r st).1.db =
        (dispatch ar.IntentName cx ar unprocessed (afterMethodCheck r st)).1.db ∧
      (webhookHandler cx r st).1.calls =
        (dispatch ar.IntentName cx ar unprocessed (afterMethodCheck r st)).1.calls := by
  rw [webhookHandler_decoded cx r st ar hbody]
  rcases dispatch ar.IntentName cx ar unprocessed (afterMethodCheck r st) with ⟨st1, rj, _ | e⟩ <;>
    exact ⟨rfl, rfl⟩

/-- The text of the tally reply. -/
theorem Sprintf_tally (tally : Int) (clock : String) :
    fmt.Sprintf "Tally %d for contacts as of %v" [.int tally, .str clock] =
      "Tally " ++ toString tally ++ " for contacts as of " ++ clock := by
  apply String.ext
  simp [fmt.Sprintf, fmt.format, fmt.verb, Arg.text]

/-- The text of the reply when no contact is found. -/
theorem Sprintf_none_found (gn ln : String) :
    fmt.Sprintf "No contact found for first name %s, last name: %s" [.str gn, .str ln] =
      "No contact found for first name " ++ gn ++ ", last name: " ++ ln := by
  apply String.ext
  simp [fmt.Sprintf, fmt.format, fmt.verb, Arg.text]

/-- The text of the reply for a contact found. -/
theorem Sprintf_found (fn ln address phone email : String) :
    fmt.Sprintf "Found: %s %s at address: %s, with phone number: %s and email: %s"
        [.str fn, .str ln, .str address, .str phone, .str email] =
      "Found: " ++ fn ++ " " ++ ln ++ " at address: " ++ address ++ ", with phone number: " ++
        phone ++ " and email: " ++ email := by
  apply String.ext
  simp [fmt.Sprintf, fmt.format, fmt.verb, Arg.text]

/-- The `switch` on the counting intent when TallyContacts answers: the reply carries
the tally it returned. -/
theorem dispatch_tally_ok (cx : Ctx) (ar : APIAIRequest) (st0 : State) (tally : Int)
    (ht : Contacts.TallyContacts st0.db cx.env = (tally, none)) :
    dispatch "number_of_contacts" cx ar unprocessed st0 =
      (st0.call .TallyContacts,
        answer ("Tally " ++ toString tally ++ " for contacts as of " ++ cx.clock), none) := by
  have ht2 : Contacts.TallyContacts (st0.call StorageCall.TallyContacts).db cx.env =
      (tally, none) := ht
  simp only [dispatch, if_true, tallyContacts, ht2, Sprintf_tally]
  rfl

/-- The `switch` on the counting intent when TallyContacts fails: its error is returned. -/
theorem dispatch_tally_error (cx : Ctx) (ar : APIAIRequest) (st0 : State) (tally : Int)
    (err : Error) (ht : Contacts.TallyContacts st0.db cx.env = (tally, some err)) :
    ∃ rj, dispatch "number_of_contacts" cx ar unprocessed st0 =
      (st0.call .TallyContacts, rj, some err) := by
  have ht2 : Contacts.TallyContacts (st0.call StorageCall.TallyContacts).db cx.env =
      (tally, some err) := ht
  simp only [dispatch, if_true, tallyContacts, ht2]
  exact ⟨_, rfl⟩

/-- The `switch` on the finding intent when FindContactByName fails: its error is
returned. -/
theorem dispatch_find_error (cx : Ctx) (ar : APIAIRequest) (st0 : State) (err : Error)
    (hf : Contacts.FindContactByName st0.db cx.env (ar.Parameters.get "given-name")
      (ar.Parameters.get "last-name") = .error err) :
    ∃ rj, dispatch "find_contact" cx ar unprocessed st0 =
      (st0.call (.FindContactByName (ar.Parameters.get "given-name")
        (ar.Parameters.get "last-name")), rj, some err) := by
  have hne : ¬ ("find_contact" = "number_of_contacts") := by decide
  have hf2 : Contacts.FindContactByName
      (st0.call (StorageCall.FindContactByName (ar.Parameters.get "given-name")
        (ar.Parameters.get "last-name"))).db cx.env (ar.Parameters.get "given-name")
      (ar.Parameters.get "last-name") = .error err := hf
  simp only [dispatch, hne, if_false, if_true, findContact, extractContactFromAPIAIRequest,
    APIAIContact.ofParameters, hf2]
  exact ⟨_, rfl⟩

/-- The `switch` on the finding intent when FindContactByName finds nothing. -/
theorem dispatch_find_none (cx : Ctx) (ar : APIAIRequest) (st0 : State)
    (hf : Contacts.FindContactByName st0.db cx.env (ar.Parameters.get "given-name")
      (ar.Parameters.get "last-name") = .ok []) :
    dispatch "find_contact" cx ar unprocessed st0 =
      (st0.call (.FindContactByName (ar.Parameters.get "given-name")
        (ar.Parameters.get "last-name")),
        answer ("No contact found for first name " ++ ar.Parameters.get "given-name" ++
          ", last name: " ++ ar.Parameters.get "last-name"), none) := by
  have hne : ¬ ("find_contact" = "number_of_contacts") := by decide
  have hf2 : Contacts.FindContactByName
      (st0.call (StorageCall.FindContactByName (ar.Parameters.get "given-name")
        (ar.Parameters.get "last-name"))).db cx.env (ar.Parameters.get "given-name")
      (ar.Parameters.get "last-name") = .ok [] := hf
  simp only [dispatch, hne, if_false, if_true, findContact, extractContactFromAPIAIRequest,
    APIAIContact.ofParameters, hf2, Sprintf_none_found]
  rfl

/-- The `switch` on the finding intent when FindContactByName finds a contact: the reply
tells the fields of the first contact it returned. -/
theorem dispatch_find_some (cx : Ctx) (ar : APIAIRequest) (st0 : State) (c : Contact)
    (rest : List Contact)
    (hf : Contacts.FindContactByName st0.db cx.env (ar.Parameters.get "given-name")
      (ar.Parameters.get "last-name") = .ok (c :: rest)) :
    dispatch "find_contact" cx ar unprocessed st0 =
      (st0.call (.FindContactByName (ar.Parameters.get "given-name")
        (ar.Parameters.get "last-name")),
        answer ("Found: " ++ c.FirstName ++ " " ++ c.LastName ++ " at address: " ++ c.Address ++
          ", with phone number: " ++ c.Phone ++ " and email: " ++ c.Email), none) := by
  have hne : ¬ ("find_contact" = "number_of_contacts") := by decide
  have hf2 : Contacts.FindContactByName
      (st0.call (StorageCall.FindContactByName (ar.Parameters.get "given-name")
        (ar.Parameters.get "last-name"))).db cx.env (ar.Parameters.get "given-name")
      (ar.Parameters.get "last-name") = .ok (c :: rest) := hf
  simp only [dispatch, hne, if_false, if_true, findContact, extractContactFromAPIAIRequest,
    APIAIContact.ofParameters, hf2, Sprintf_found]
  rfl

/-- C17: for a request whose body decodes, the intent "number_of_contacts" calls
TallyContacts of the storage interface, once, and answers with what it
returned: the tally in the JSON reply, or its error as the error of the handler;
"find_contact" calls FindContactByName, once, on the given name and last name
of the request and answers with what it returned: its error, the reply that no
contact was found, or the reply telling the first contact found; for every
other intent name the handler makes no call on the storage interface, returns
no error and writes, as JSON, the message whose Speech and DisplayText are the
placeholder reporting 0 contacts; in no case is the database changed. -/
theorem C17_webhook_dispatch (cx : Ctx) (r : Request) (st : State) (ar : APIAIRequest)
    (hbody : r.Body = .ok ar) :
    (webhookHandler cx r st).1.db = st.db ∧
    (ar.IntentName = "number_of_contacts" →
      (webhookHandler cx r st).1.calls = st.calls ++ [.TallyContacts]) ∧
    (ar.IntentName = "find_contact" →
      (webhookHandler cx r st).1.calls =
        st.calls ++ [.FindContactByName (ar.Parameters.get "given-name")
          (ar.Parameters.get "last-name")]) ∧
    (ar.IntentName ≠ "number_of_contacts" → ar.IntentName ≠ "find_contact" →
      (webhookHandler cx r st).1.calls = st.calls ∧
      (webhookHandler cx r st).2 = none ∧
      (webhookHandler cx r st).1.w =
        ((afterMethodCheck r st).w.SetHeader "Content-Type" "application/json").Write
          (.json ⟨"You have 0 contacts as of " ++ cx.clock,
            "You have 0 contacts as of " ++ cx.clock,
            "rjj-work@gmail.com yum-contacts programming exercise"⟩)) ∧
    (ar.IntentName = "number_of_contacts" →
      (∀ tally : Int, Contacts.TallyContacts st.db cx.env = (tally, none) →
        webhookHandler cx r st =
          (⟨st.db,
            reply r st (answer ("Tally " ++ toString tally ++ " for contacts as of " ++ cx.clock)),
            st.calls ++ [.TallyContacts]⟩, none)) ∧
      (∀ (tally : Int) (err : Error),
        Contacts.TallyContacts st.db cx.env = (tally, some err) →
        webhookHandler cx r st =
          (⟨st.db, (afterMethodCheck r st).w, st.calls ++ [.TallyContacts]⟩,
            some (appErrorf (some err) "Processing of INTENT: %s failed: %v"
              [.str "number_of_contacts", .err (some err)])))) ∧
    (ar.IntentName = "find_contact" →
      (∀ err : Error,
        Contacts.FindContactByName st.db cx.env (ar.Parameters.get "given-name")
          (ar.Parameters.get "last-name") = .error err →
        webhookHandler cx r st =
          (⟨st.db, (afterMethodCheck r st).w,
            st.calls ++ [.FindContactByName (ar.Parameters.get "given-name")
              (ar.Parameters.get "last-name")]⟩,
            some (appErrorf (some err) "Processing of INTENT: %s failed: %v"
              [.str "find_contact", .err (some err)]))) ∧
      (Contacts.FindContactByName st.db cx.env (ar.Parameters.get "given-name")
          (ar.Parameters.get "last-name") = .ok [] →
        webhookHandler cx r st =
          (⟨st.db,
            reply r st (answer ("No contact found for first name " ++
              ar.Parameters.get "given-name" ++ ", last name: " ++
              ar.Parameters.get "last-name")),
            st.calls ++ [.FindContactByName (ar.Parameters.get "given-name")
              (ar.Parameters.get "last-name")]⟩, none)) ∧
      (∀ (c : Contact) (rest : List Contact),
        Contacts.FindContactByName st.db cx.env (ar.Parameters.get "given-name")
          (ar.Parameters.get "last-name") = .ok (c :: rest) →
        webhookHandler cx r st =
          (⟨st.db,
            reply r st (answer ("Found: " ++ c.FirstName ++ " " ++ c.LastName ++
              " at address: " ++ c.Address ++ ", with phone number: " ++ c.Phone ++
              " and email: " ++ c.Email)),
            st.calls ++ [.FindContactByName (ar.Parameters.get "given-name")
              (ar.Parameters.get "last-name")]⟩, none))) := by
  obtain ⟨hdb, hcalls⟩ := webhookHandler_frame cx r st ar hbody
  obtain ⟨hdb0, hcalls0⟩ := afterMethodCheck_frame r st
  refine ⟨?_, ?_, ?_, ?_, fun h1 => ⟨?_, ?_⟩, fun h2 => ⟨?_, ?_, ?_⟩⟩
  · rw [hdb]
    by_cases h1 : ar.IntentName = "number_of_contacts"
    · rw [h1, dispatch_tally]
      exact hdb0
    · by_cases h2 : ar.IntentName = "find_contact"
      · rw [h2, dispatch_find]
        exact hdb0
      · rw [dispatch_stub _ _ _ _ _ h1 h2]
        exact hdb0
  · intro h1
    rw [hcalls, h1, dispatch_tally]
    simp only [State.call, hcalls0]
  · intro h2
    rw [hcalls, h2, dispatch_find]
    simp only [State.call, hcalls0]
  · intro h1 h2
    rw [webhookHandler_decoded cx r st ar hbody, dispatch_stub _ _ _ _ _ h1 h2]
    exact ⟨hcalls0, rfl, rfl⟩
  · intro tally ht
    rw [webhookHandler_decoded cx r st ar hbody, h1,
      dispatch_tally_ok cx ar _ tally (by rw [hdb0]; exact ht)]
    simp only [State.call, hdb0, hcalls0, reply]
  · intro tally err ht
    obtain ⟨rj, hd⟩ := dispatch_tally_error cx ar (afterMethodCheck r st) tally err
      (by rw [hdb0]; exact ht)
    rw [webhookHandler_decoded cx r st ar hbody, h1, hd]
    simp only [State.call, hdb0, hcalls0]
  · intro err hf
    obtain ⟨rj, hd⟩ := dispatch_find_error cx ar (afterMethodCheck r st) err
      (by rw [hdb0]; exact hf)
    rw [webhookHandler_decoded cx r st ar hbody, h2, hd]
    simp only [State.call, hdb0, hcalls0]
  · intro hf
    rw [webhookHandler_decoded cx r st ar hbody, h2,
      dispatch_find_none cx ar _ (by rw [hdb0]; exact hf)]
    simp only [State.call, hdb0, hcalls0, reply]
  · intro c rest hf
    rw [webhookHandler_decoded cx r st ar hbody, h2,
      dispatch_find_some cx ar _ c rest (by rw [hdb0]; exact hf)]
    simp only [State.call, hdb0, hcalls0, reply]

/-- C17, instances on the two-row table: a POST with the intent `add_contact` calls
nothing; the count is answered with the tally 2 that TallyContacts returns; the
request for Ned Flanders is answered with the contact FindContactByName
returns. -/
theorem C17_webhook_dispatch_witness :
    (webhookHandler calm ⟨"POST", [], [], .ok addMarge⟩ twoState).1.calls = [] ∧
      (webhookHandler calm ⟨"POST", [], [], .ok addMarge⟩ twoState).2 = none ∧
      (webhookHandler calm postHowMany twoState).1.calls = [.TallyContacts] ∧
      (Contacts.TallyContacts twoState.db calm.env = (2, none) ∧
        webhookHandler calm postHowMany twoState =
          (⟨twoState.db,
            reply postHowMany twoState
              (answer ("Tally " ++ toString (2 : Int) ++ " for contacts as of " ++ calm.clock)),
            twoState.calls ++ [.TallyContacts]⟩, none)) ∧
      (Contacts.FindContactByName twoState.db calm.env (findNed.Parameters.get "given-name")
          (findNed.Parameters.get "last-name") = .ok [ned] ∧
        webhookHandler calm postFindNed twoState =
          (⟨twoState.db,
            reply postFindNed twoState
              (answer ("Found: " ++ ned.FirstName ++ " " ++ ned.LastName ++ " at address: " ++
                ned.Address ++ ", with phone number: " ++ ned.Phone ++ " and email: " ++
                ned.Email)),
            twoState.calls ++ [.FindContactByName (findNed.Parameters.get "given-name")
              (findNed.Parameters.get "last-name")]⟩, none)) :=
  ⟨((C17_webhook_dispatch calm ⟨"POST", [], [], .ok addMarge⟩ twoState addMarge rfl).2.2.2.1
      (by decide) (by decide)).1,
    ((C17_webhook_dispatch calm ⟨"POST", [], [], .ok addMarge⟩ twoState addMarge rfl).2.2.2.1
      (by decide) (by decide)).2.1,
    (C17_webhook_dispatch calm postHowMany twoState howMany rfl).2.1 (by decide),
    ⟨by rfl,
      ((C17_webhook_dispatch calm postHowMany twoState howMany rfl).2.2.2.2.1
        (by decide)).1 2 (by rfl)⟩,
    ⟨by rfl,
      ((C17_webhook_dispatch calm postFindNed twoState findNed rfl).2.2.2.2.2
        (by decide)).2.2 ned [] (by rfl)⟩⟩

/-- C18: for a request that is not nil, extractContactFromAPIAIRequest returns the
projection whose GivenName, LastName, Address, Email and Phone are the
parameters "given-name", "last-name", "address", "email" and "phone-number",
a parameter that is absent reading as the empty string; two requests that
agree on these five parameters give the same projection; and for nil the
result is nil. -/
theorem C18_extract_contact (ar : APIAIRequest) :
    extractContactFromAPIAIRequest (some ar) =
        some ⟨ar.Parameters.get "given-name", ar.Parameters.get "last-name",
          ar.Parameters.get "address", ar.Parameters.get "email",
          ar.Parameters.get "phone-number"⟩ ∧
    (∀ key : String, key ∉ ar.Parameters.map Prod.fst → ar.Parameters.get key = "") ∧
    (∀ other : APIAIRequest,
      (∀ key ∈ ["given-name", "last-name", "address", "email", "phone-number"],
        other.Parameters.get key = ar.Parameters.get key) →
      extractContactFromAPIAIRequest (some other) = extractContactFromAPIAIRequest (some ar)) ∧
    extractContactFromAPIAIRequest none = none := by
  refine ⟨rfl, ?_, ?_, rfl⟩
  · intro key habsent
    have hnone : List.lookup key ar.Parameters = none := by
      rw [List.lookup_eq_none_iff]
      intro kv hkv
      by_contra hk
      have hkey : key = kv.1 := by simpa using hk
      exact habsent (hkey ▸ List.mem_map_of_mem Prod.fst hkv)
    simp [StringMap.get, hnone]
  · intro other hsame
    simp only [extractContactFromAPIAIRequest, APIAIContact.ofParameters]
    rw [hsame "given-name" (by simp), hsame "last-name" (by simp), hsame "address" (by simp),
      hsame "email" (by simp), hsame "phone-number" (by simp)]

/-- C18, an instance: the request for Marge carries two of the five parameters and one
more that is not read. -/
theorem C18_extract_contact_witness :
    extractContactFromAPIAIRequest (some addMarge) = some ⟨"Marge", "Simpson", "", "", ""⟩ ∧
      addMarge.Parameters.get "email" = "" ∧
      extractContactFromAPIAIRequest
          (some { addMarge with Parameters := [("last-name", "Simpson"), ("given-name", "Marge")] }) =
        extractContactFromAPIAIRequest (some addMarge) :=
  ⟨(C18_extract_contact addMarge).1,
    (C18_extract_contact addMarge).2.1 "email" (by decide),
    (C18_extract_contact addMarge).2.2.1 _ (by decide)⟩

/-- C19, the counterexample: handed a request sent with GET, webhookHandler answers
405 and then processes it all the same: its body is decoded, its intent
dispatched to the storage interface, and the JSON message written after the
error text. -/
theorem C19_get_is_processed_after_405 :
    (webhookHandler calm getHowMany twoState).1.w =
        ⟨some 405,
          [("X-Content-Type-Options", "nosniff"), ("Content-Type", "text/plain; charset=utf-8")],
          [.text "Error, expected POST, received: GET\n",
           .json ⟨"Tally 2 for contacts as of 2017-08-21 12:00:00 +0000 UTC",
             "Tally 2 for contacts as of 2017-08-21 12:00:00 +0000 UTC",
             "rjj-work@gmail.com yum-contacts programming exercise"⟩]⟩ ∧
      (webhookHandler calm getHowMany twoState).1.calls = [.TallyContacts] ∧
      (webhookHandler calm getHowMany twoState).2 = none :=
  ⟨by rfl, by rfl, by rfl⟩

/-- The `switch` of the webhook leaves the response writer as it is. -/
theorem dispatch_writer (intent : String) (cx : Ctx) (ar : APIAIRequest) (rj : APIAIMessage)
    (st0 : State) : (dispatch intent cx ar rj st0).1.w = st0.w := by
  by_cases h1 : intent = "number_of_contacts"
  · rw [h1, dispatch_tally]
    rfl
  · by_cases h2 : intent = "find_contact"
    · rw [h2, dispatch_find]
      rfl
    · rw [dispatch_stub _ _ _ _ _ h1 h2]

/-- Once the status line is written, setting a header and writing only add to the body. -/
theorem write_after_status (w : ResponseWriter) (code : Int) (hs : w.status = some code)
    (key value : String) (x : Written) :
    (w.SetHeader key value).Write x = { w with body := w.body ++ [x] } := by
  simp [ResponseWriter.SetHeader, ResponseWriter.Write, ResponseWriter.WriteHeader, hs]

/-- The reply of `http.Error` on a writer without a status line. -/
theorem http_Error_fresh (w : ResponseWriter) (msg : String) (code : Int)
    (hw : w.status = none) :
    (http.Error w msg code).status = some code ∧
      (http.Error w msg code).body = w.body ++ [.text (msg ++ "\n")] := by
  simp [http.Error, ResponseWriter.SetHeader, ResponseWriter.WriteHeader, ResponseWriter.Write, hw]

/-- C19 (as the code has it): for every request whose method is not POST,
webhookHandler answers with 405 Method Not Allowed: on a writer nothing was
written to, the status of the response is 405, also after `ServeHTTP`, and the
text "Error, expected POST, received: " with the method is written before
anything else; for a POST request the method check writes nothing; and the
route registered for the handler runs it only for the method POST on the path
/contactsWebhook, so that through the route the body is decoded, an intent
dispatched and a JSON response written only when the method is POST. -/
theorem C19_method_check (cx : Ctx) (r : Request) (st : State) :
    (r.Method ≠ "POST" → st.w.status = none →
      (webhookHandler cx r st).1.w.status = some 405 ∧
      (appHandler.ServeHTTP webhookHandler cx r st).w.status = some 405 ∧
      ∃ rest : List Written, (webhookHandler cx r st).1.w.body =
        st.w.body ++
          Written.text ("Error, expected POST, received: " ++ r.Method ++ "\n") :: rest) ∧
    (r.Method = "POST" → afterMethodCheck r st = st) ∧
    (∀ (path : String) (h : appHandler), webhookRoute r.Method path = some h →
      r.Method = "POST" ∧ path = "/contactsWebhook" ∧ h = webhookHandler ∧
        afterMethodCheck r st = st) ∧
    (r.Method ≠ "POST" → ∀ path : String, webhookRoute r.Method path = none) := by
  have hpost : r.Method = "POST" → afterMethodCheck r st = st := by
    intro hm
    simp [afterMethodCheck, hm]
  refine ⟨?_, hpost, ?_, ?_⟩
  · intro hm hw
    have hm2 : "POST" ≠ r.Method := fun h => hm h.symm
    obtain ⟨hs, hb⟩ := http_Error_fresh st.w ("Error, expected POST, received: " ++ r.Method)
      405 hw
    have hamc : (afterMethodCheck r st).w =
        http.Error st.w ("Error, expected POST, received: " ++ r.Method) 405 := by
      simp [afterMethodCheck, hm2]
    have key : (webhookHandler cx r st).1.w.status = some 405 ∧
        ∃ rest : List Written, (webhookHandler cx r st).1.w.body =
          st.w.body ++
            Written.text ("Error, expected POST, received: " ++ r.Method ++ "\n") :: rest := by
      cases hbody : r.Body with
      | error err =>
        have hst : (webhookHandler cx r st).1 = afterMethodCheck r st := by
          unfold webhookHandler afterMethodCheck
          simp only [hbody]
        rw [hst, hamc]
        exact ⟨hs, [], hb⟩
      | ok ar =>
        rw [webhookHandler_decoded cx r st ar hbody]
        have hw1 := dispatch_writer ar.IntentName cx ar unprocessed (afterMethodCheck r st)
        rcases hd : dispatch ar.IntentName cx ar unprocessed (afterMethodCheck r st) with
          ⟨st1, rj, derr⟩
        rw [hd] at hw1
        simp only at hw1
        have hs1 : st1.w.status = some 405 := by rw [hw1, hamc]; exact hs
        have hb1 : st1.w.body = st.w.body ++
            [Written.text ("Error, expected POST, received: " ++ r.Method ++ "\n")] := by
          rw [hw1, hamc]; exact hb
        cases derr with
        | some err => exact ⟨hs1, [], by simpa using hb1⟩
        | none =>
          simp only [write_after_status st1.w 405 hs1]
          exact ⟨hs1, [.json rj], by simp [hb1]⟩
    refine ⟨key.1, ?_, key.2⟩
    unfold appHandler.ServeHTTP
    rcases hh : webhookHandler cx r st with ⟨st2, e⟩
    rw [hh] at key
    cases e with
    | none => exact key.1
    | some e =>
      have h405 : st2.w.status = some 405 := key.1
      simp [http.Error, ResponseWriter.SetHeader, ResponseWriter.WriteHeader,
        ResponseWriter.Write, h405]
  · intro path h hroute
    unfold webhookRoute at hroute
    by_cases hc : r.Method = "POST" ∧ path = "/contactsWebhook"
    · rw [if_pos hc] at hroute
      simp only [Option.some.injEq] at hroute
      exact ⟨hc.1, hc.2, hroute.symm, hpost hc.1⟩
    · rw [if_neg hc] at hroute
      cases hroute
  · intro hm path
    simp [webhookRoute, hm]

/-- C19, instances: the count sent with GET is answered 405 and is not run by the route;
sent with POST it passes the method check untouched. -/
theorem C19_method_check_witness :
    getHowMany.Method ≠ "POST" ∧
      (webhookHandler calm getHowMany twoState).1.w.status = some 405 ∧
      webhookRoute getHowMany.Method "/contactsWebhook" = none ∧
      afterMethodCheck postHowMany twoState = twoState :=
  ⟨by decide, ((C19_method_check calm getHowMany twoState).1 (by decide) (by rfl)).1,
    (C19_method_check calm getHowMany twoState).2.2.2 (by decide) "/contactsWebhook",
    (C19_method_check calm postHowMany twoState).2.1 (by rfl)⟩

end Main
